import Mathlib

/-!
Verification development for the BioCHP financial analysis engine
(`runFinancialModel` and `runSensitivity` in `src/App.jsx`).

The engine is a pure function of its numeric inputs.  JavaScript numbers are
idealised as exact field elements: the year-by-year projection, debt service,
NPV, IRR bisection, payback and sensitivity analysis are embedded over an
arbitrary `LinearOrderedField` (instantiated at `ℚ` for concrete evaluation
and at `ℝ` for the full model).  The single genuinely transcendental
computation, the learning-curve exponent `Math.log(LR) / Math.log(2)` and
`Math.pow(n, lr_exp)`, lives over `ℝ` (`Real.rpow`).
-/

namespace BioCHP

unseal Rat.mul Rat.add Rat.sub Rat.inv in
/-- The scenario inputs destructured at the top of `runFinancialModel`.
Field names follow the source.  Counts and the project horizon are naturals,
the start year an integer; every other quantity is a field element. -/
structure Inputs (F : Type) where
  P_elec : F
  P_therm : F
  f_avail : F
  F_tpd : F
  N_units : ℕ
  R_power : F
  f_power_util : F
  r_power : F
  R_therm : F
  f_therm_util : F
  r_therm : F
  R_tipping : F
  W_tpy : F
  r_tipping : F
  CC_methane : F
  CC_fuel : F
  CC_emissions : F
  P_carbon : F
  r_carbon : F
  C_cust_power : F
  C_cust_therm : F
  C_cust_waste : F
  C_biochp : F
  C_enexfuel : F
  C_install : F
  C_site : F
  R_maint : F
  C_fuel_process : F
  C_insurance : F
  C_acct_mgmt : F
  r_maint : F
  r_fuel : F
  f_equity : F
  r_debt : F
  T_loan : ℕ
  f_loan_fees : F
  r_disc : F
  T_project : ℕ
  Y_start : ℤ
  LR : F
  units_per_year : F

/-- One record of the `years` array pushed per simulated year. -/
structure YearRec (F : Type) where
  y : ℕ
  year : ℤ
  N_deployed : ℤ
  R_pwr : F
  R_thrm : F
  R_tip : F
  R_crb : F
  R_total : F
  OPEX : F
  EBITDA : F
  DS : F
  DSCR : Option F
  capex_year : F
  CF : F
  DCF : F
  cumNPV : F

/-- The all-zero year record, used as the (unreachable) list-access default. -/
def YearRec.zero (F : Type) [LinearOrderedField F] : YearRec F :=
  ⟨0, 0, 0, 0, 0, 0, 0, 0, 0, 0, 0, none, 0, 0, 0, 0⟩

instance {F : Type} [LinearOrderedField F] : Inhabited (YearRec F) :=
  ⟨YearRec.zero F⟩

/-- The three warning messages `runFinancialModel` can push, abstracted from
their string renderings: negative NPV, DSCR below 1.0 (default risk),
DSCR in [1.0, 1.25) (covenant risk). -/
inductive Warning
  | npvNegative
  | dscrDefaultRisk
  | dscrCovenant
deriving DecidableEq, Repr

/-- The object returned by `runFinancialModel`. -/
structure ModelResult (F : Type) where
  hours_yr : F
  E_power_yr : F
  E_therm_yr : F
  F_tpy : F
  CC_net : F
  C_current_total : F
  C_enexor_total : F
  savings_annual : F
  savings_pct : F
  C_current_power : F
  C_current_therm : F
  C_current_waste : F
  C_enexor_power : F
  C_enexor_therm : F
  C_enexor_waste : F
  CAPEX_unit1 : F
  capex_fleet_total : F
  unit_capex : List F
  loan_amount : F
  annual_debt_service : F
  NPV : F
  IRR : Option F
  payback_disc : Option ℕ
  payback_simple : Option ℕ
  DSCR_min : Option F
  R_per_unit : F
  R_per_unit_power : F
  R_per_unit_therm : F
  R_per_unit_tip : F
  R_per_unit_carbon : F
  years : List (YearRec F)
  warnings : List Warning
  yr1_revenue : F
  yr1_opex : F
  yr1_ebitda : F

namespace Model

variable {F : Type} [LinearOrderedField F] [FloorRing F]

/-- Source: `hours_yr = 8760 * f_avail`. -/
def hours_yr (I : Inputs F) : F := 8760 * I.f_avail

/-- Source: `E_power_yr = P_elec * hours_yr`. -/
def E_power_yr (I : Inputs F) : F := I.P_elec * hours_yr I

/-- Source: `E_therm_yr = P_therm * hours_yr`. -/
def E_therm_yr (I : Inputs F) : F := I.P_therm * hours_yr I

/-- Source: `F_tpy = F_tpd * 365 * f_avail`. -/
def F_tpy (I : Inputs F) : F := I.F_tpd * 365 * I.f_avail

/-- Source: `CC_net = Math.max(0, CC_methane + CC_fuel - CC_emissions)`. -/
def CC_net (I : Inputs F) : F := max 0 (I.CC_methane + I.CC_fuel - I.CC_emissions)

/-- Source: `C_current_power = E_power_yr * f_power_util * C_cust_power`. -/
def C_current_power (I : Inputs F) : F := E_power_yr I * I.f_power_util * I.C_cust_power

/-- Source: `C_current_therm = E_therm_yr * f_therm_util * C_cust_therm`. -/
def C_current_therm (I : Inputs F) : F := E_therm_yr I * I.f_therm_util * I.C_cust_therm

/-- Source: `C_current_waste = Math.min(F_tpy, W_tpy) * C_cust_waste`. -/
def C_current_waste (I : Inputs F) : F := min (F_tpy I) I.W_tpy * I.C_cust_waste

/-- Total current customer cost. -/
def C_current_total (I : Inputs F) : F :=
  C_current_power I + C_current_therm I + C_current_waste I

/-- Source: `C_enexor_power = E_power_yr * f_power_util * R_power`. -/
def C_enexor_power (I : Inputs F) : F := E_power_yr I * I.f_power_util * I.R_power

/-- Source: `C_enexor_therm = E_therm_yr * f_therm_util * R_therm`. -/
def C_enexor_therm (I : Inputs F) : F := E_therm_yr I * I.f_therm_util * I.R_therm

/-- Source: `C_enexor_waste = Math.min(F_tpy, W_tpy) * R_tipping`. -/
def C_enexor_waste (I : Inputs F) : F := min (F_tpy I) I.W_tpy * I.R_tipping

/-- Total cost to the customer under Enexor service. -/
def C_enexor_total (I : Inputs F) : F :=
  C_enexor_power I + C_enexor_therm I + C_enexor_waste I

/-- Source: `savings_annual = C_current_total - C_enexor_total`. -/
def savings_annual (I : Inputs F) : F := C_current_total I - C_enexor_total I

/-- Source: `savings_pct`, guarded against a zero baseline. -/
def savings_pct (I : Inputs F) : F :=
  if 0 < C_current_total I then savings_annual I / C_current_total I * 100 else 0

/-- Source: `CAPEX_unit1 = C_biochp + C_enexfuel + C_install`. -/
def CAPEX_unit1 (I : Inputs F) : F := I.C_biochp + I.C_enexfuel + I.C_install

/-- Source: `capex_fleet_total = unit_capex.reduce((s, v) => s + v, 0)`. -/
def capex_fleet_total (capex : List F) : F := capex.sum

/-- Source: `CAPEX_debt = capex_fleet_total * (1 - f_equity)`. -/
def CAPEX_debt (I : Inputs F) (capex : List F) : F :=
  capex_fleet_total capex * (1 - I.f_equity)

/-- Source: `loan_amount = CAPEX_debt * (1 + f_loan_fees / 100)`. -/
def loan_amount (I : Inputs F) (capex : List F) : F :=
  CAPEX_debt I capex * (1 + I.f_loan_fees / 100)

/-- The debt-service branch: amortised monthly annuity times 12 when
`CAPEX_debt > 0 && T_loan > 0 && r_debt > 0`, straight line when only
`CAPEX_debt > 0 && T_loan > 0`, otherwise 0. -/
def annual_debt_service (I : Inputs F) (capex : List F) : F :=
  if 0 < CAPEX_debt I capex ∧ 0 < I.T_loan ∧ 0 < I.r_debt then
    let r_monthly : F := I.r_debt / 100 / 12
    let n_months : ℕ := I.T_loan * 12
    loan_amount I capex * r_monthly / (1 - (1 + r_monthly) ^ (-(n_months : ℤ))) * 12
  else if 0 < CAPEX_debt I capex ∧ 0 < I.T_loan then
    loan_amount I capex / (I.T_loan : F)
  else 0

/-- Source: `N_deployed = Math.min(N_units, Math.floor(y * units_per_year) + 1)`. -/
def N_deployed (I : Inputs F) (y : ℕ) : ℤ :=
  min (I.N_units : ℤ) (⌊(y : F) * I.units_per_year⌋ + 1)

/-- Source: `N_prev`: 0 in year 0, else the deployment count of the previous year. -/
def N_prev (I : Inputs F) (y : ℕ) : ℤ :=
  if y = 0 then 0 else min (I.N_units : ℤ) (⌊((y : F) - 1) * I.units_per_year⌋ + 1)

/-- Source: `unit_capex[n-1] || 0` for a 1-based unit index `n` (0 for an index
outside the array, matching the JavaScript `undefined || 0`). -/
def idxCapex (capex : List F) (n : ℤ) : F :=
  if 0 < n then capex.getD (n - 1).toNat 0 else 0

/-- Capital cost recognised in year `y`: the per-unit costs of units
`N_prev + 1 .. N_deployed`. -/
def capex_year (I : Inputs F) (capex : List F) (y : ℕ) : F :=
  ((List.range (N_deployed I y - N_prev I y).toNat).map
    (fun k => idxCapex capex (N_prev I y + 1 + k))).sum

/-- Escalation factor `Math.pow(1 + rate / 100, y)`. -/
def esc (rate : F) (y : ℕ) : F := (1 + rate / 100) ^ y

/-- Power revenue in year `y`. -/
def R_pwr (I : Inputs F) (y : ℕ) : F :=
  (N_deployed I y : F) * E_power_yr I * I.f_power_util * I.R_power * esc I.r_power y

/-- Thermal revenue in year `y`. -/
def R_thrm (I : Inputs F) (y : ℕ) : F :=
  (N_deployed I y : F) * E_therm_yr I * I.f_therm_util * I.R_therm * esc I.r_therm y

/-- Source: `W_tipped = Math.min(N_deployed * F_tpy, W_tpy)`. -/
def W_tipped (I : Inputs F) (y : ℕ) : F :=
  min ((N_deployed I y : F) * F_tpy I) I.W_tpy

/-- Tipping revenue in year `y`. -/
def R_tip (I : Inputs F) (y : ℕ) : F :=
  W_tipped I y * I.R_tipping * esc I.r_tipping y

/-- Carbon-credit revenue in year `y`. -/
def R_crb (I : Inputs F) (y : ℕ) : F :=
  (N_deployed I y : F) * CC_net I * I.P_carbon * esc I.r_carbon y

/-- Total revenue in year `y`. -/
def R_total (I : Inputs F) (y : ℕ) : F :=
  R_pwr I y + R_thrm I y + R_tip I y + R_crb I y

/-- Maintenance cost in year `y`. -/
def C_maint (I : Inputs F) (y : ℕ) : F :=
  (N_deployed I y : F) * E_power_yr I * I.R_maint * esc I.r_maint y

/-- Fuel-processing cost in year `y`. -/
def C_fuel (I : Inputs F) (y : ℕ) : F :=
  (N_deployed I y : F) * F_tpy I * I.C_fuel_process * esc I.r_fuel y

/-- Fixed cost in year `y`, escalated at the hardcoded `1.03` per year. -/
def C_fixed (I : Inputs F) (y : ℕ) : F :=
  (N_deployed I y : F) * (I.C_insurance + I.C_acct_mgmt) * ((103 : F) / 100) ^ y

/-- Operating cost in year `y`. -/
def OPEX (I : Inputs F) (y : ℕ) : F := C_maint I y + C_fuel I y + C_fixed I y

/-- Source: `EBITDA = R_total - OPEX`. -/
def EBITDA (I : Inputs F) (y : ℕ) : F := R_total I y - OPEX I y

/-- Debt service due in year `y`: the annual payment while `y < T_loan`. -/
def DS (I : Inputs F) (capex : List F) (y : ℕ) : F :=
  if y < I.T_loan then annual_debt_service I capex else 0

/-- Source: `DSCR = DS > 0 ? EBITDA / DS : null`. -/
def DSCR (I : Inputs F) (capex : List F) (y : ℕ) : Option F :=
  if 0 < DS I capex y then some (EBITDA I y / DS I capex y) else none

/-- Cash flow in year `y`. -/
def CF (I : Inputs F) (capex : List F) (y : ℕ) : F :=
  R_total I y - OPEX I y - capex_year I capex y - DS I capex y

/-- Source: `discount_factor = Math.pow(1 + r_disc / 100, y)`. -/
def discount_factor (I : Inputs F) (y : ℕ) : F := (1 + I.r_disc / 100) ^ y

/-- Discounted cash flow in year `y`. -/
def DCF (I : Inputs F) (capex : List F) (y : ℕ) : F :=
  CF I capex y / discount_factor I y

/-- Cumulative discounted cash flow through year `y` (`cumulative_dcf`). -/
def cumNPV (I : Inputs F) (capex : List F) (y : ℕ) : F :=
  ((List.range (y + 1)).map (DCF I capex)).sum

/-- Cumulative undiscounted cash flow through year `y` (`cumulative_cf`). -/
def cumCF (I : Inputs F) (capex : List F) (y : ℕ) : F :=
  ((List.range (y + 1)).map (CF I capex)).sum

/-- The record pushed for year `y`. -/
def year_rec (I : Inputs F) (capex : List F) (y : ℕ) : YearRec F :=
  { y := y
    year := I.Y_start + y
    N_deployed := N_deployed I y
    R_pwr := R_pwr I y
    R_thrm := R_thrm I y
    R_tip := R_tip I y
    R_crb := R_crb I y
    R_total := R_total I y
    OPEX := OPEX I y
    EBITDA := EBITDA I y
    DS := DS I capex y
    DSCR := DSCR I capex y
    capex_year := capex_year I capex y
    CF := CF I capex y
    DCF := DCF I capex y
    cumNPV := cumNPV I capex y }

/-- The `years` array: one record for `y = 0 .. T_project`. -/
def years (I : Inputs F) (capex : List F) : List (YearRec F) :=
  (List.range (I.T_project + 1)).map (year_rec I capex)

/-- Source: `NPV = cumulative_dcf` after the final year. -/
def NPV (I : Inputs F) (capex : List F) : F := cumNPV I capex I.T_project

/-- First year `y > 0` with cumulative discounted cash flow `≥ 0`. -/
def payback_disc (I : Inputs F) (capex : List F) : Option ℕ :=
  (List.range (I.T_project + 1)).find?
    (fun y => decide (0 < y) && decide (0 ≤ cumNPV I capex y))

/-- First year `y > 0` with cumulative undiscounted cash flow `≥ 0`. -/
def payback_simple (I : Inputs F) (capex : List F) : Option ℕ :=
  (List.range (I.T_project + 1)).find?
    (fun y => decide (0 < y) && decide (0 ≤ cumCF I capex y))

/-- The per-year cash-flow sequence the IRR solver iterates over. -/
def cfList (I : Inputs F) (capex : List F) : List F :=
  (List.range (I.T_project + 1)).map (CF I capex)

/-- Source: `npv_test` at rate `r`: `Σ cfs[y] / (1 + r)^y` (the year index is the
list position, as in `for (const yr of years)`). -/
def npvAt (cfs : List F) (r : F) : F :=
  ((List.range cfs.length).map (fun y => cfs.getD y 0 / (1 + r) ^ y)).sum

/-- One-to-a-hundred bisection iterations of the IRR solver, fuel-indexed.
Each step evaluates `npvAt` at the midpoint, narrows the bracket, and stops
when the bracket width drops below `0.0001` (checked after the update, as in
the source loop). -/
def bisect (cfs : List F) : ℕ → F → F → F × F
  | 0, lo, hi => (lo, hi)
  | fuel + 1, lo, hi =>
    let mid := (lo + hi) / 2
    let p : F × F := if 0 < npvAt cfs mid then (mid, hi) else (lo, mid)
    if |p.2 - p.1| < 1 / 10000 then p else bisect cfs fuel p.1 p.2

/-- The IRR result: the midpoint of the final bracket, provided both
endpoints moved away from the initial `[-0.5, 2.0]` by more than `0.01`. -/
def IRR (I : Inputs F) (capex : List F) : Option F :=
  let p := bisect (cfList I capex) 100 (-(1 / 2)) 2
  if 1 / 100 < |p.1 - (-(1 / 2))| ∧ 1 / 100 < |p.2 - 2| then
    some ((p.1 + p.2) / 2)
  else none

/-- The non-null per-year DSCR values. -/
def dscr_values (I : Inputs F) (capex : List F) : List F :=
  (List.range (I.T_project + 1)).filterMap (DSCR I capex)

/-- Source: `DSCR_min = Math.min(...dscr_values)` when any exist, else null. -/
def DSCR_min (I : Inputs F) (capex : List F) : Option F :=
  (dscr_values I capex).min?

/-- Source: `yr1 = years[1] || years[0]`. -/
def yr1 (I : Inputs F) (capex : List F) : YearRec F :=
  (years I capex).getD 1 ((years I capex).getD 0 default)

/-- Source: `R_per_unit = yr1.N_deployed > 0 ? yr1.R_total / yr1.N_deployed : 0`. -/
def R_per_unit (I : Inputs F) (capex : List F) : F :=
  if 0 < (yr1 I capex).N_deployed then
    (yr1 I capex).R_total / ((yr1 I capex).N_deployed : F)
  else 0

/-- Per-unit power revenue in year 1. -/
def R_per_unit_power (I : Inputs F) (capex : List F) : F :=
  if 0 < (yr1 I capex).N_deployed then
    (yr1 I capex).R_pwr / ((yr1 I capex).N_deployed : F)
  else 0

/-- Per-unit thermal revenue in year 1. -/
def R_per_unit_therm (I : Inputs F) (capex : List F) : F :=
  if 0 < (yr1 I capex).N_deployed then
    (yr1 I capex).R_thrm / ((yr1 I capex).N_deployed : F)
  else 0

/-- Per-unit tipping revenue in year 1. -/
def R_per_unit_tip (I : Inputs F) (capex : List F) : F :=
  if 0 < (yr1 I capex).N_deployed then
    (yr1 I capex).R_tip / ((yr1 I capex).N_deployed : F)
  else 0

/-- Per-unit carbon revenue in year 1. -/
def R_per_unit_carbon (I : Inputs F) (capex : List F) : F :=
  if 0 < (yr1 I capex).N_deployed then
    (yr1 I capex).R_crb / ((yr1 I capex).N_deployed : F)
  else 0

/-- The warning list: negative NPV, then DSCR default risk (`< 1.0`), then
DSCR covenant risk (`< 1.25` and `>= 1.0`), in push order. -/
def warnings (I : Inputs F) (capex : List F) : List Warning :=
  (if NPV I capex < 0 then [Warning.npvNegative] else []) ++
  (match DSCR_min I capex with
   | none => []
   | some m =>
     (if m < 1 then [Warning.dscrDefaultRisk] else []) ++
     (if m < 5 / 4 ∧ 1 ≤ m then [Warning.dscrCovenant] else []))

/-- The body of `runFinancialModel` given the already-computed per-unit
capital cost list (the learning-curve schedule). -/
def run (I : Inputs F) (capex : List F) : ModelResult F :=
  { hours_yr := hours_yr I
    E_power_yr := E_power_yr I
    E_therm_yr := E_therm_yr I
    F_tpy := F_tpy I
    CC_net := CC_net I
    C_current_total := C_current_total I
    C_enexor_total := C_enexor_total I
    savings_annual := savings_annual I
    savings_pct := savings_pct I
    C_current_power := C_current_power I
    C_current_therm := C_current_therm I
    C_current_waste := C_current_waste I
    C_enexor_power := C_enexor_power I
    C_enexor_therm := C_enexor_therm I
    C_enexor_waste := C_enexor_waste I
    CAPEX_unit1 := CAPEX_unit1 I
    capex_fleet_total := capex_fleet_total capex
    unit_capex := capex
    loan_amount := loan_amount I capex
    annual_debt_service := annual_debt_service I capex
    NPV := NPV I capex
    IRR := IRR I capex
    payback_disc := payback_disc I capex
    payback_simple := payback_simple I capex
    DSCR_min := DSCR_min I capex
    R_per_unit := R_per_unit I capex
    R_per_unit_power := R_per_unit_power I capex
    R_per_unit_therm := R_per_unit_therm I capex
    R_per_unit_tip := R_per_unit_tip I capex
    R_per_unit_carbon := R_per_unit_carbon I capex
    years := years I capex
    warnings := warnings I capex
    yr1_revenue := (yr1 I capex).R_total
    yr1_opex := (yr1 I capex).OPEX
    yr1_ebitda := (yr1 I capex).EBITDA }

end Model

/-- The learning-curve capital schedule: `cost(n) = CAPEX_unit1 * n ^ (log LR / log 2)`
for `n = 1 .. N` (`lr_exp = Math.log(LR) / Math.log(2)`). -/
noncomputable def unitCapex (c lr : ℝ) (n : ℕ) : List ℝ :=
  (List.range n).map (fun i => c * (((i + 1 : ℕ) : ℝ) ^ (Real.log lr / Real.log 2)))

/-- The capital schedule `runFinancialModel` computes for its inputs. -/
noncomputable def capexOf (I : Inputs ℝ) : List ℝ :=
  unitCapex (Model.CAPEX_unit1 I) I.LR I.N_units

/-- The full `runFinancialModel`: learning-curve schedule feeding the engine. -/
noncomputable def evaluate (I : Inputs ℝ) : ModelResult ℝ :=
  Model.run I (capexOf I)

/-- The eight parameters tracked by `runSensitivity`, in source order. -/
inductive ParamLabel
  | powerRate
  | thermalRate
  | tippingFee
  | carbonPrice
  | availability
  | biochpCost
  | fuelProcessCost
  | discRate
deriving DecidableEq, Repr

/-- One row of the sensitivity result. -/
structure SensRow (F : Type) where
  label : ParamLabel
  lo : F
  hi : F
  range : F

/-- Source: `{...baseInputs, [p.key]: f(baseInputs[p.key])}` for each tracked key. -/
def applyParam (p : ParamLabel) (f : ℝ → ℝ) (I : Inputs ℝ) : Inputs ℝ :=
  match p with
  | .powerRate => { I with R_power := f I.R_power }
  | .thermalRate => { I with R_therm := f I.R_therm }
  | .tippingFee => { I with R_tipping := f I.R_tipping }
  | .carbonPrice => { I with P_carbon := f I.P_carbon }
  | .availability => { I with f_avail := f I.f_avail }
  | .biochpCost => { I with C_biochp := f I.C_biochp }
  | .fuelProcessCost => { I with C_fuel_process := f I.C_fuel_process }
  | .discRate => { I with r_disc := f I.r_disc }

/-- The `params` array of `runSensitivity`. -/
def sensParams : List ParamLabel :=
  [.powerRate, .thermalRate, .tippingFee, .carbonPrice,
   .availability, .biochpCost, .fuelProcessCost, .discRate]

/-- One sensitivity row: the full model at `0.8×` and `1.2×` the parameter,
deltas against the baseline NPV. -/
noncomputable def sensRow (I : Inputs ℝ) (baseNPV : ℝ) (p : ParamLabel) : SensRow ℝ :=
  let npvLo := (evaluate (applyParam p (fun v => v * (8 / 10)) I)).NPV
  let npvHi := (evaluate (applyParam p (fun v => v * (12 / 10)) I)).NPV
  { label := p, lo := npvLo - baseNPV, hi := npvHi - baseNPV, range := |npvHi - npvLo| }

/-- Source: `runSensitivity`: builds the eight rows against the baseline NPV and sorts
them descending by `range` (the stable sort `(a, b) => b.range - a.range`). -/
noncomputable def sensitivity (I : Inputs ℝ) : List (SensRow ℝ) :=
  let baseNPV := (evaluate I).NPV
  (sensParams.map (sensRow I baseNPV)).mergeSort
    (fun a b => decide (b.range ≤ a.range))

/-- Rational inputs coerced into the real-valued model, field by field.
Concrete scenarios are written over `ℚ` so that the engine can be evaluated
by `decide`, and transported to `ℝ` through this embedding. -/
def Inputs.cast (I : Inputs ℚ) : Inputs ℝ :=
  { P_elec := I.P_elec
    P_therm := I.P_therm
    f_avail := I.f_avail
    F_tpd := I.F_tpd
    N_units := I.N_units
    R_power := I.R_power
    f_power_util := I.f_power_util
    r_power := I.r_power
    R_therm := I.R_therm
    f_therm_util := I.f_therm_util
    r_therm := I.r_therm
    R_tipping := I.R_tipping
    W_tpy := I.W_tpy
    r_tipping := I.r_tipping
    CC_methane := I.CC_methane
    CC_fuel := I.CC_fuel
    CC_emissions := I.CC_emissions
    P_carbon := I.P_carbon
    r_carbon := I.r_carbon
    C_cust_power := I.C_cust_power
    C_cust_therm := I.C_cust_therm
    C_cust_waste := I.C_cust_waste
    C_biochp := I.C_biochp
    C_enexfuel := I.C_enexfuel
    C_install := I.C_install
    C_site := I.C_site
    R_maint := I.R_maint
    C_fuel_process := I.C_fuel_process
    C_insurance := I.C_insurance
    C_acct_mgmt := I.C_acct_mgmt
    r_maint := I.r_maint
    r_fuel := I.r_fuel
    f_equity := I.f_equity
    r_debt := I.r_debt
    T_loan := I.T_loan
    f_loan_fees := I.f_loan_fees
    r_disc := I.r_disc
    T_project := I.T_project
    Y_start := I.Y_start
    LR := I.LR
    units_per_year := I.units_per_year }

/-- A neutral all-zero single-unit scenario over `ℚ`: one unit, zero rates
and costs, full equity, no loan, discount rate 0, two simulated years
(`T_project = 1`), learning rate 1. Concrete test scenarios override a few
of its fields. -/
def zeroInputs : Inputs ℚ :=
  { P_elec := 0, P_therm := 0, f_avail := 0, F_tpd := 0, N_units := 1,
    R_power := 0, f_power_util := 0, r_power := 0,
    R_therm := 0, f_therm_util := 0, r_therm := 0,
    R_tipping := 0, W_tpy := 0, r_tipping := 0,
    CC_methane := 0, CC_fuel := 0, CC_emissions := 0, P_carbon := 0, r_carbon := 0,
    C_cust_power := 0, C_cust_therm := 0, C_cust_waste := 0,
    C_biochp := 0, C_enexfuel := 0, C_install := 0, C_site := 0,
    R_maint := 0, C_fuel_process := 0, C_insurance := 0, C_acct_mgmt := 0,
    r_maint := 0, r_fuel := 0,
    f_equity := 1, r_debt := 0, T_loan := 0, f_loan_fees := 0,
    r_disc := 0, T_project := 1, Y_start := 2026, LR := 1, units_per_year := 1 }

/-- The worked scenario of spec section 8: one unit, availability 1,
electrical output 100, utilization 1, power rate 0.10, zero escalation,
zero capital and operating cost, no debt, discount rate 0, horizon 1 year,
all other revenue streams zero. -/
def scenC1 : Inputs ℚ :=
  { zeroInputs with P_elec := 100, f_avail := 1, R_power := 1/10, f_power_util := 1 }

/-- A scenario whose cash flows are all negative (insurance cost only):
cash flows are `[-100, -103]`, so a larger discount rate raises the NPV. -/
def scenC2 : Inputs ℚ :=
  { zeroInputs with C_insurance := 100 }

/-- The worked scenario plus a capital cost of 175200 in year 0, giving
cash flows `[-87600, 87600]` whose exact IRR is 0. -/
def scenC3 : Inputs ℚ :=
  { scenC1 with C_biochp := 175200, f_equity := 1 }

/-- Debt scenario of the spec: fleet capital 100000 fully debt financed at
6 percent over 5 years with no fees, so the loan amount is 100000. -/
def scenC6 : Inputs ℚ :=
  { zeroInputs with C_biochp := 100000, f_equity := 0, r_debt := 6, T_loan := 5 }

/-- The debt scenario with an equity fraction of 2, making the debt-financed
principal negative while rate and term stay positive. -/
def scenC6neg : Inputs ℚ :=
  { scenC6 with f_equity := 2 }

/-- A waste-capped scenario: per-unit throughput 365 tons per year against
an available supply of 100 tons per year, tipping fee 2. -/
def scenC8 : Inputs ℚ :=
  { zeroInputs with F_tpd := 1, f_avail := 1, W_tpy := 100, R_tipping := 2 }

/-- The worked scenario restricted to a zero-year horizon (only year 0). -/
def scenC10 : Inputs ℚ :=
  { scenC1 with T_project := 0 }

/-- A rational year record coerced into the real-valued model. -/
def YearRec.cast (r : YearRec ℚ) : YearRec ℝ :=
  { y := r.y
    year := r.year
    N_deployed := r.N_deployed
    R_pwr := r.R_pwr
    R_thrm := r.R_thrm
    R_tip := r.R_tip
    R_crb := r.R_crb
    R_total := r.R_total
    OPEX := r.OPEX
    EBITDA := r.EBITDA
    DS := r.DS
    DSCR := r.DSCR.map (fun q : ℚ => (q : ℝ))
    capex_year := r.capex_year
    CF := r.CF
    DCF := r.DCF
    cumNPV := r.cumNPV }

/-! ### Projections of the coerced inputs -/

@[simp] theorem cast_P_elec (I : Inputs ℚ) : (Inputs.cast I).P_elec = ((I.P_elec : ℚ) : ℝ) := rfl

@[simp] theorem cast_P_therm (I : Inputs ℚ) : (Inputs.cast I).P_therm = ((I.P_therm : ℚ) : ℝ) := rfl

@[simp] theorem cast_f_avail (I : Inputs ℚ) : (Inputs.cast I).f_avail = ((I.f_avail : ℚ) : ℝ) := rfl

@[simp] theorem cast_F_tpd (I : Inputs ℚ) : (Inputs.cast I).F_tpd = ((I.F_tpd : ℚ) : ℝ) := rfl

@[simp] theorem cast_R_power (I : Inputs ℚ) : (Inputs.cast I).R_power = ((I.R_power : ℚ) : ℝ) := rfl

@[simp] theorem cast_f_power_util (I : Inputs ℚ) : (Inputs.cast I).f_power_util = ((I.f_power_util : ℚ) : ℝ) := rfl

@[simp] theorem cast_r_power (I : Inputs ℚ) : (Inputs.cast I).r_power = ((I.r_power : ℚ) : ℝ) := rfl

@[simp] theorem cast_R_therm (I : Inputs ℚ) : (Inputs.cast I).R_therm = ((I.R_therm : ℚ) : ℝ) := rfl

@[simp] theorem cast_f_therm_util (I : Inputs ℚ) : (Inputs.cast I).f_therm_util = ((I.f_therm_util : ℚ) : ℝ) := rfl

@[simp] theorem cast_r_therm (I : Inputs ℚ) : (Inputs.cast I).r_therm = ((I.r_therm : ℚ) : ℝ) := rfl

@[simp] theorem cast_R_tipping (I : Inputs ℚ) : (Inputs.cast I).R_tipping = ((I.R_tipping : ℚ) : ℝ) := rfl

@[simp] theorem cast_W_tpy (I : Inputs ℚ) : (Inputs.cast I).W_tpy = ((I.W_tpy : ℚ) : ℝ) := rfl

@[simp] theorem cast_r_tipping (I : Inputs ℚ) : (Inputs.cast I).r_tipping = ((I.r_tipping : ℚ) : ℝ) := rfl

@[simp] theorem cast_CC_methane (I : Inputs ℚ) : (Inputs.cast I).CC_methane = ((I.CC_methane : ℚ) : ℝ) := rfl

@[simp] theorem cast_CC_fuel (I : Inputs ℚ) : (Inputs.cast I).CC_fuel = ((I.CC_fuel : ℚ) : ℝ) := rfl

@[simp] theorem cast_CC_emissions (I : Inputs ℚ) : (Inputs.cast I).CC_emissions = ((I.CC_emissions : ℚ) : ℝ) := rfl

@[simp] theorem cast_P_carbon (I : Inputs ℚ) : (Inputs.cast I).P_carbon = ((I.P_carbon : ℚ) : ℝ) := rfl

@[simp] theorem cast_r_carbon (I : Inputs ℚ) : (Inputs.cast I).r_carbon = ((I.r_carbon : ℚ) : ℝ) := rfl

@[simp] theorem cast_C_cust_power (I : Inputs ℚ) : (Inputs.cast I).C_cust_power = ((I.C_cust_power : ℚ) : ℝ) := rfl

@[simp] theorem cast_C_cust_therm (I : Inputs ℚ) : (Inputs.cast I).C_cust_therm = ((I.C_cust_therm : ℚ) : ℝ) := rfl

@[simp] theorem cast_C_cust_waste (I : Inputs ℚ) : (Inputs.cast I).C_cust_waste = ((I.C_cust_waste : ℚ) : ℝ) := rfl

@[simp] theorem cast_C_biochp (I : Inputs ℚ) : (Inputs.cast I).C_biochp = ((I.C_biochp : ℚ) : ℝ) := rfl

@[simp] theorem cast_C_enexfuel (I : Inputs ℚ) : (Inputs.cast I).C_enexfuel = ((I.C_enexfuel : ℚ) : ℝ) := rfl

@[simp] theorem cast_C_install (I : Inputs ℚ) : (Inputs.cast I).C_install = ((I.C_install : ℚ) : ℝ) := rfl

@[simp] theorem cast_C_site (I : Inputs ℚ) : (Inputs.cast I).C_site = ((I.C_site : ℚ) : ℝ) := rfl

@[simp] theorem cast_R_maint (I : Inputs ℚ) : (Inputs.cast I).R_maint = ((I.R_maint : ℚ) : ℝ) := rfl

@[simp] theorem cast_C_fuel_process (I : Inputs ℚ) : (Inputs.cast I).C_fuel_process = ((I.C_fuel_process : ℚ) : ℝ) := rfl

@[simp] theorem cast_C_insurance (I : Inputs ℚ) : (Inputs.cast I).C_insurance = ((I.C_insurance : ℚ) : ℝ) := rfl

@[simp] theorem cast_C_acct_mgmt (I : Inputs ℚ) : (Inputs.cast I).C_acct_mgmt = ((I.C_acct_mgmt : ℚ) : ℝ) := rfl

@[simp] theorem cast_r_maint (I : Inputs ℚ) : (Inputs.cast I).r_maint = ((I.r_maint : ℚ) : ℝ) := rfl

@[simp] theorem cast_r_fuel (I : Inputs ℚ) : (Inputs.cast I).r_fuel = ((I.r_fuel : ℚ) : ℝ) := rfl

@[simp] theorem cast_f_equity (I : Inputs ℚ) : (Inputs.cast I).f_equity = ((I.f_equity : ℚ) : ℝ) := rfl

@[simp] theorem cast_r_debt (I : Inputs ℚ) : (Inputs.cast I).r_debt = ((I.r_debt : ℚ) : ℝ) := rfl

@[simp] theorem cast_f_loan_fees (I : Inputs ℚ) : (Inputs.cast I).f_loan_fees = ((I.f_loan_fees : ℚ) : ℝ) := rfl

@[simp] theorem cast_r_disc (I : Inputs ℚ) : (Inputs.cast I).r_disc = ((I.r_disc : ℚ) : ℝ) := rfl

@[simp] theorem cast_LR (I : Inputs ℚ) : (Inputs.cast I).LR = ((I.LR : ℚ) : ℝ) := rfl

@[simp] theorem cast_units_per_year (I : Inputs ℚ) : (Inputs.cast I).units_per_year = ((I.units_per_year : ℚ) : ℝ) := rfl

@[simp] theorem cast_N_units (I : Inputs ℚ) : (Inputs.cast I).N_units = I.N_units := rfl

@[simp] theorem cast_T_loan (I : Inputs ℚ) : (Inputs.cast I).T_loan = I.T_loan := rfl

@[simp] theorem cast_T_project (I : Inputs ℚ) : (Inputs.cast I).T_project = I.T_project := rfl

@[simp] theorem cast_Y_start (I : Inputs ℚ) : (Inputs.cast I).Y_start = I.Y_start := rfl

/-! ### List helpers for the cast transport -/

theorem list_sum_cast (l : List ℚ) :
    ((l.sum : ℚ) : ℝ) = (l.map (fun q : ℚ => (q : ℝ))).sum := by
  induction l with
  | nil => simp
  | cons a t ih => rw [List.sum_cons, List.map_cons, List.sum_cons, Rat.cast_add, ih]

theorem list_getD_cast (l : List ℚ) (i : ℕ) :
    (l.map (fun q : ℚ => (q : ℝ))).getD i 0 = ((l.getD i 0 : ℚ) : ℝ) := by
  induction l generalizing i with
  | nil => simp [List.getD]
  | cons a t ih =>
    cases i with
    | zero => rfl
    | succ n => simpa [List.getD] using ih n

theorem list_foldl_min_cast (l : List ℚ) (a : ℚ) :
    (l.map (fun q : ℚ => (q : ℝ))).foldl min ((a : ℚ) : ℝ) = ((l.foldl min a : ℚ) : ℝ) := by
  induction l generalizing a with
  | nil => rfl
  | cons b t ih => rw [List.map_cons, List.foldl_cons, List.foldl_cons, ← Rat.cast_min, ih]

theorem list_min?_cast (l : List ℚ) :
    (l.map (fun q : ℚ => (q : ℝ))).min? = l.min?.map (fun q : ℚ => (q : ℝ)) := by
  cases l with
  | nil => rfl
  | cons a t =>
    rw [List.map_cons, List.min?_cons', List.min?_cons', list_foldl_min_cast]
    rfl

namespace Model

/-! ### Transport of every engine component along the cast from `ℚ` to `ℝ`.

Each lemma states that the real-valued engine evaluated on coerced inputs
and a coerced capital schedule returns the coercion of the rational result,
so that concrete real-valued scenarios can be decided over `ℚ`. -/

variable (I : Inputs ℚ) (capex : List ℚ)

@[simp] theorem hours_yr_cast :
    hours_yr (Inputs.cast I) = ((hours_yr I : ℚ) : ℝ) := by
  rw [hours_yr, hours_yr, cast_f_avail]; push_cast; ring

@[simp] theorem E_power_yr_cast :
    E_power_yr (Inputs.cast I) = ((E_power_yr I : ℚ) : ℝ) := by
  rw [E_power_yr, E_power_yr, cast_P_elec, hours_yr_cast]; push_cast; ring

@[simp] theorem E_therm_yr_cast :
    E_therm_yr (Inputs.cast I) = ((E_therm_yr I : ℚ) : ℝ) := by
  rw [E_therm_yr, E_therm_yr, cast_P_therm, hours_yr_cast]; push_cast; ring

@[simp] theorem F_tpy_cast :
    F_tpy (Inputs.cast I) = ((F_tpy I : ℚ) : ℝ) := by
  rw [F_tpy, F_tpy, cast_F_tpd, cast_f_avail]; push_cast; ring

@[simp] theorem CC_net_cast :
    CC_net (Inputs.cast I) = ((CC_net I : ℚ) : ℝ) := by
  rw [CC_net, CC_net, cast_CC_methane, cast_CC_fuel, cast_CC_emissions]
  push_cast
  rfl

@[simp] theorem CAPEX_unit1_cast :
    CAPEX_unit1 (Inputs.cast I) = ((CAPEX_unit1 I : ℚ) : ℝ) := by
  rw [CAPEX_unit1, CAPEX_unit1, cast_C_biochp, cast_C_enexfuel, cast_C_install]
  push_cast; ring

@[simp] theorem capex_fleet_total_cast :
    capex_fleet_total (capex.map (fun q : ℚ => (q : ℝ)))
      = ((capex_fleet_total capex : ℚ) : ℝ) := by
  rw [capex_fleet_total, capex_fleet_total, list_sum_cast]

@[simp] theorem CAPEX_debt_cast :
    CAPEX_debt (Inputs.cast I) (capex.map (fun q : ℚ => (q : ℝ)))
      = ((CAPEX_debt I capex : ℚ) : ℝ) := by
  rw [CAPEX_debt, CAPEX_debt, capex_fleet_total_cast, cast_f_equity]
  push_cast; ring

@[simp] theorem loan_amount_cast :
    loan_amount (Inputs.cast I) (capex.map (fun q : ℚ => (q : ℝ)))
      = ((loan_amount I capex : ℚ) : ℝ) := by
  rw [loan_amount, loan_amount, CAPEX_debt_cast, cast_f_loan_fees]
  push_cast; ring

@[simp] theorem annual_debt_service_cast :
    annual_debt_service (Inputs.cast I) (capex.map (fun q : ℚ => (q : ℝ)))
      = ((annual_debt_service I capex : ℚ) : ℝ) := by
  rw [annual_debt_service, annual_debt_service]
  rw [CAPEX_debt_cast, cast_T_loan, cast_r_debt]
  simp only [Rat.cast_pos]
  split_ifs with h1 h2
  · rw [loan_amount_cast]; push_cast; ring
  · rw [loan_amount_cast]; push_cast; ring
  · simp

@[simp] theorem N_deployed_cast (y : ℕ) :
    N_deployed (Inputs.cast I) y = N_deployed I y := by
  rw [N_deployed, N_deployed, cast_N_units, cast_units_per_year]
  rw [show ((y : ℝ)) * ((I.units_per_year : ℚ) : ℝ)
      = (((y : ℚ) * I.units_per_year : ℚ) : ℝ) from by push_cast; ring]
  rw [Rat.floor_cast]

@[simp] theorem N_prev_cast (y : ℕ) :
    N_prev (Inputs.cast I) y = N_prev I y := by
  rw [N_prev, N_prev, cast_N_units, cast_units_per_year]
  rw [show ((y : ℝ) - 1) * ((I.units_per_year : ℚ) : ℝ)
      = ((((y : ℚ) - 1) * I.units_per_year : ℚ) : ℝ) from by push_cast; ring]
  rw [Rat.floor_cast]

@[simp] theorem idxCapex_cast (n : ℤ) :
    idxCapex (capex.map (fun q : ℚ => (q : ℝ))) n = ((idxCapex capex n : ℚ) : ℝ) := by
  rw [idxCapex, idxCapex]
  split_ifs with h
  · rw [list_getD_cast]
  · simp

@[simp] theorem capex_year_cast (y : ℕ) :
    capex_year (Inputs.cast I) (capex.map (fun q : ℚ => (q : ℝ))) y
      = ((capex_year I capex y : ℚ) : ℝ) := by
  rw [capex_year, capex_year, N_deployed_cast, N_prev_cast, list_sum_cast, List.map_map]
  refine congrArg List.sum (List.map_congr_left fun k _ => ?_)
  exact idxCapex_cast capex (N_prev I y + 1 + k)

@[simp] theorem esc_cast (r : ℚ) (y : ℕ) :
    esc ((r : ℚ) : ℝ) y = ((esc r y : ℚ) : ℝ) := by
  rw [esc, esc]; push_cast; ring

@[simp] theorem R_pwr_cast (y : ℕ) :
    R_pwr (Inputs.cast I) y = ((R_pwr I y : ℚ) : ℝ) := by
  rw [R_pwr, R_pwr, N_deployed_cast, E_power_yr_cast, cast_f_power_util, cast_R_power,
    cast_r_power, esc_cast]
  push_cast; ring

@[simp] theorem R_thrm_cast (y : ℕ) :
    R_thrm (Inputs.cast I) y = ((R_thrm I y : ℚ) : ℝ) := by
  rw [R_thrm, R_thrm, N_deployed_cast, E_therm_yr_cast, cast_f_therm_util, cast_R_therm,
    cast_r_therm, esc_cast]
  push_cast; ring

@[simp] theorem W_tipped_cast (y : ℕ) :
    W_tipped (Inputs.cast I) y = ((W_tipped I y : ℚ) : ℝ) := by
  rw [W_tipped, W_tipped, N_deployed_cast, F_tpy_cast, cast_W_tpy]
  rw [show ((N_deployed I y : ℤ) : ℝ) * ((F_tpy I : ℚ) : ℝ)
      = ((((N_deployed I y : ℤ) : ℚ) * F_tpy I : ℚ) : ℝ) from by push_cast; ring]
  rw [← Rat.cast_min]

@[simp] theorem R_tip_cast (y : ℕ) :
    R_tip (Inputs.cast I) y = ((R_tip I y : ℚ) : ℝ) := by
  rw [R_tip, R_tip, W_tipped_cast, cast_R_tipping, cast_r_tipping, esc_cast]
  push_cast; ring

@[simp] theorem R_crb_cast (y : ℕ) :
    R_crb (Inputs.cast I) y = ((R_crb I y : ℚ) : ℝ) := by
  rw [R_crb, R_crb, N_deployed_cast, CC_net_cast, cast_P_carbon, cast_r_carbon, esc_cast]
  push_cast; ring

@[simp] theorem R_total_cast (y : ℕ) :
    R_total (Inputs.cast I) y = ((R_total I y : ℚ) : ℝ) := by
  rw [R_total, R_total, R_pwr_cast, R_thrm_cast, R_tip_cast, R_crb_cast]
  push_cast; ring

@[simp] theorem C_maint_cast (y : ℕ) :
    C_maint (Inputs.cast I) y = ((C_maint I y : ℚ) : ℝ) := by
  rw [C_maint, C_maint, N_deployed_cast, E_power_yr_cast, cast_R_maint, cast_r_maint,
    esc_cast]
  push_cast; ring

@[simp] theorem C_fuel_cast (y : ℕ) :
    C_fuel (Inputs.cast I) y = ((C_fuel I y : ℚ) : ℝ) := by
  rw [C_fuel, C_fuel, N_deployed_cast, F_tpy_cast, cast_C_fuel_process, cast_r_fuel,
    esc_cast]
  push_cast; ring

@[simp] theorem C_fixed_cast (y : ℕ) :
    C_fixed (Inputs.cast I) y = ((C_fixed I y : ℚ) : ℝ) := by
  rw [C_fixed, C_fixed, N_deployed_cast, cast_C_insurance, cast_C_acct_mgmt]
  push_cast; ring

@[simp] theorem OPEX_cast (y : ℕ) :
    OPEX (Inputs.cast I) y = ((OPEX I y : ℚ) : ℝ) := by
  rw [OPEX, OPEX, C_maint_cast, C_fuel_cast, C_fixed_cast]; push_cast; ring

@[simp] theorem EBITDA_cast (y : ℕ) :
    EBITDA (Inputs.cast I) y = ((EBITDA I y : ℚ) : ℝ) := by
  rw [EBITDA, EBITDA, R_total_cast, OPEX_cast]; push_cast; ring

@[simp] theorem DS_cast (y : ℕ) :
    DS (Inputs.cast I) (capex.map (fun q : ℚ => (q : ℝ))) y = ((DS I capex y : ℚ) : ℝ) := by
  rw [DS, DS, cast_T_loan]
  split_ifs with h
  · exact annual_debt_service_cast I capex
  · simp

@[simp] theorem DSCR_cast (y : ℕ) :
    DSCR (Inputs.cast I) (capex.map (fun q : ℚ => (q : ℝ))) y
      = (DSCR I capex y).map (fun q : ℚ => (q : ℝ)) := by
  rw [DSCR, DSCR, DS_cast, EBITDA_cast]
  simp only [Rat.cast_pos]
  split_ifs with h
  · simp [Rat.cast_div]
  · rfl

@[simp] theorem CF_cast (y : ℕ) :
    CF (Inputs.cast I) (capex.map (fun q : ℚ => (q : ℝ))) y = ((CF I capex y : ℚ) : ℝ) := by
  rw [CF, CF, R_total_cast, OPEX_cast, capex_year_cast, DS_cast]; push_cast; ring

@[simp] theorem discount_factor_cast (y : ℕ) :
    discount_factor (Inputs.cast I) y = ((discount_factor I y : ℚ) : ℝ) := by
  rw [discount_factor, discount_factor, cast_r_disc]; push_cast; ring

@[simp] theorem DCF_cast (y : ℕ) :
    DCF (Inputs.cast I) (capex.map (fun q : ℚ => (q : ℝ))) y = ((DCF I capex y : ℚ) : ℝ) := by
  rw [DCF, DCF, CF_cast, discount_factor_cast]; push_cast; ring

@[simp] theorem cumNPV_cast (y : ℕ) :
    cumNPV (Inputs.cast I) (capex.map (fun q : ℚ => (q : ℝ))) y
      = ((cumNPV I capex y : ℚ) : ℝ) := by
  rw [cumNPV, cumNPV, list_sum_cast, List.map_map]
  refine congrArg List.sum (List.map_congr_left fun z _ => ?_)
  exact DCF_cast I capex z

@[simp] theorem cumCF_cast (y : ℕ) :
    cumCF (Inputs.cast I) (capex.map (fun q : ℚ => (q : ℝ))) y
      = ((cumCF I capex y : ℚ) : ℝ) := by
  rw [cumCF, cumCF, list_sum_cast, List.map_map]
  refine congrArg List.sum (List.map_congr_left fun z _ => ?_)
  exact CF_cast I capex z

end Model
theorem list_getD_map {α β : Type} (f : α → β) (l : List α) (i : ℕ) (d : α) :
    (l.map f).getD i (f d) = f (l.getD i d) := by
  induction l generalizing i with
  | nil => rfl
  | cons a t ih =>
    cases i with
    | zero => rfl
    | succ n => exact ih n

theorem YearRec.cast_zero : YearRec.cast (YearRec.zero ℚ) = YearRec.zero ℝ := by
  rw [YearRec.cast, YearRec.zero, YearRec.zero]
  simp

@[simp] theorem YearRec.cast_y (r : YearRec ℚ) : (YearRec.cast r).y = r.y := rfl

@[simp] theorem YearRec.cast_N_dep (r : YearRec ℚ) :
    (YearRec.cast r).N_deployed = r.N_deployed := rfl

@[simp] theorem YearRec.cast_R_pwr (r : YearRec ℚ) :
    (YearRec.cast r).R_pwr = ((r.R_pwr : ℚ) : ℝ) := rfl

@[simp] theorem YearRec.cast_R_thrm (r : YearRec ℚ) :
    (YearRec.cast r).R_thrm = ((r.R_thrm : ℚ) : ℝ) := rfl

@[simp] theorem YearRec.cast_R_tip (r : YearRec ℚ) :
    (YearRec.cast r).R_tip = ((r.R_tip : ℚ) : ℝ) := rfl

@[simp] theorem YearRec.cast_R_crb (r : YearRec ℚ) :
    (YearRec.cast r).R_crb = ((r.R_crb : ℚ) : ℝ) := rfl

@[simp] theorem YearRec.cast_R_total (r : YearRec ℚ) :
    (YearRec.cast r).R_total = ((r.R_total : ℚ) : ℝ) := rfl

@[simp] theorem YearRec.cast_OPEX (r : YearRec ℚ) :
    (YearRec.cast r).OPEX = ((r.OPEX : ℚ) : ℝ) := rfl

@[simp] theorem YearRec.cast_EBITDA (r : YearRec ℚ) :
    (YearRec.cast r).EBITDA = ((r.EBITDA : ℚ) : ℝ) := rfl

@[simp] theorem YearRec.cast_DS (r : YearRec ℚ) :
    (YearRec.cast r).DS = ((r.DS : ℚ) : ℝ) := rfl

@[simp] theorem YearRec.cast_DSCR (r : YearRec ℚ) :
    (YearRec.cast r).DSCR = r.DSCR.map (fun q : ℚ => (q : ℝ)) := rfl

@[simp] theorem YearRec.cast_capex_year (r : YearRec ℚ) :
    (YearRec.cast r).capex_year = ((r.capex_year : ℚ) : ℝ) := rfl

@[simp] theorem YearRec.cast_CF (r : YearRec ℚ) :
    (YearRec.cast r).CF = ((r.CF : ℚ) : ℝ) := rfl

@[simp] theorem YearRec.cast_DCF (r : YearRec ℚ) :
    (YearRec.cast r).DCF = ((r.DCF : ℚ) : ℝ) := rfl

@[simp] theorem YearRec.cast_cumNPV (r : YearRec ℚ) :
    (YearRec.cast r).cumNPV = ((r.cumNPV : ℚ) : ℝ) := rfl

namespace Model

variable (I : Inputs ℚ) (capex : List ℚ)

@[simp] theorem cfList_cast :
    cfList (Inputs.cast I) (capex.map (fun q : ℚ => (q : ℝ)))
      = (cfList I capex).map (fun q : ℚ => (q : ℝ)) := by
  rw [cfList, cfList, cast_T_project, List.map_map]
  exact List.map_congr_left fun y _ => CF_cast I capex y

@[simp] theorem npvAt_cast (cfs : List ℚ) (r : ℚ) :
    npvAt (cfs.map (fun q : ℚ => (q : ℝ))) ((r : ℚ) : ℝ) = ((npvAt cfs r : ℚ) : ℝ) := by
  rw [npvAt, npvAt, List.length_map, list_sum_cast, List.map_map]
  refine congrArg List.sum (List.map_congr_left fun y _ => ?_)
  simp only [Function.comp_apply]
  rw [list_getD_cast]
  push_cast; ring

theorem bisect_cast (cfs : List ℚ) (fuel : ℕ) :
    ∀ (lo hi : ℚ),
      bisect (cfs.map (fun q : ℚ => (q : ℝ))) fuel ((lo : ℚ) : ℝ) ((hi : ℚ) : ℝ)
        = ((((bisect cfs fuel lo hi).1 : ℚ) : ℝ), (((bisect cfs fuel lo hi).2 : ℚ) : ℝ)) := by
  induction fuel with
  | zero => intro lo hi; rfl
  | succ fuel ih =>
    intro lo hi
    simp only [bisect]
    rw [show ((lo : ℝ) + (hi : ℝ)) / 2 = (((lo + hi) / 2 : ℚ) : ℝ) from by push_cast; ring,
      npvAt_cast]
    simp only [Rat.cast_pos]
    rcases lt_or_le 0 (npvAt cfs ((lo + hi) / 2)) with h | h
    · rw [if_pos h, if_pos h]
      dsimp only
      rw [show ((hi : ℚ) : ℝ) - (((lo + hi) / 2 : ℚ) : ℝ)
          = ((hi - (lo + hi) / 2 : ℚ) : ℝ) from by push_cast; ring, ← Rat.cast_abs,
        show (1 / 10000 : ℝ) = ((1 / 10000 : ℚ) : ℝ) from by norm_num]
      simp only [Rat.cast_lt]
      rcases lt_or_le |hi - (lo + hi) / 2| (1 / 10000 : ℚ) with hb | hb
      · rw [if_pos hb, if_pos hb]
      · rw [if_neg (not_lt.mpr hb), if_neg (not_lt.mpr hb), ih]
    · rw [if_neg (not_lt.mpr h), if_neg (not_lt.mpr h)]
      dsimp only
      rw [show (((lo + hi) / 2 : ℚ) : ℝ) - ((lo : ℚ) : ℝ)
          = (((lo + hi) / 2 - lo : ℚ) : ℝ) from by push_cast; ring, ← Rat.cast_abs,
        show (1 / 10000 : ℝ) = ((1 / 10000 : ℚ) : ℝ) from by norm_num]
      simp only [Rat.cast_lt]
      rcases lt_or_le |(lo + hi) / 2 - lo| (1 / 10000 : ℚ) with hb | hb
      · rw [if_pos hb, if_pos hb]
      · rw [if_neg (not_lt.mpr hb), if_neg (not_lt.mpr hb), ih]

@[simp] theorem IRR_cast :
    IRR (Inputs.cast I) (capex.map (fun q : ℚ => (q : ℝ)))
      = (IRR I capex).map (fun q : ℚ => (q : ℝ)) := by
  rw [IRR, IRR, cfList_cast]
  rw [show (-(1 / 2) : ℝ) = ((-(1 / 2) : ℚ) : ℝ) from by norm_num,
    show (2 : ℝ) = ((2 : ℚ) : ℝ) from by norm_num, bisect_cast]
  dsimp only
  set p := bisect (cfList I capex) 100 (-(1 / 2)) 2 with hp
  rw [show ((p.1 : ℚ) : ℝ) - ((-(1 / 2) : ℚ) : ℝ) = ((p.1 - -(1 / 2) : ℚ) : ℝ) from by
      push_cast; ring,
    show ((p.2 : ℚ) : ℝ) - ((2 : ℚ) : ℝ) = ((p.2 - 2 : ℚ) : ℝ) from by push_cast; ring,
    ← Rat.cast_abs, ← Rat.cast_abs,
    show (1 / 100 : ℝ) = ((1 / 100 : ℚ) : ℝ) from by norm_num]
  by_cases hc : 1 / 100 < |p.1 - -(1 / 2)| ∧ 1 / 100 < |p.2 - 2|
  · rw [if_pos ⟨Rat.cast_lt.mpr hc.1, Rat.cast_lt.mpr hc.2⟩, if_pos hc]
    rw [show Option.map (fun q : ℚ => (q : ℝ)) (some ((p.1 + p.2) / 2))
        = some (((p.1 + p.2) / 2 : ℚ) : ℝ) from rfl]
    push_cast
    rfl
  · rw [if_neg (fun hx => hc ⟨Rat.cast_lt.mp hx.1, Rat.cast_lt.mp hx.2⟩), if_neg hc]
    rfl

@[simp] theorem NPV_cast :
    NPV (Inputs.cast I) (capex.map (fun q : ℚ => (q : ℝ))) = ((NPV I capex : ℚ) : ℝ) := by
  rw [NPV, NPV, cast_T_project, cumNPV_cast]

@[simp] theorem payback_disc_cast :
    payback_disc (Inputs.cast I) (capex.map (fun q : ℚ => (q : ℝ)))
      = payback_disc I capex := by
  rw [payback_disc, payback_disc, cast_T_project]
  congr 1
  funext y
  simp only [cumNPV_cast, Rat.cast_nonneg]

@[simp] theorem payback_simple_cast :
    payback_simple (Inputs.cast I) (capex.map (fun q : ℚ => (q : ℝ)))
      = payback_simple I capex := by
  rw [payback_simple, payback_simple, cast_T_project]
  congr 1
  funext y
  simp only [cumCF_cast, Rat.cast_nonneg]

@[simp] theorem dscr_values_cast :
    dscr_values (Inputs.cast I) (capex.map (fun q : ℚ => (q : ℝ)))
      = (dscr_values I capex).map (fun q : ℚ => (q : ℝ)) := by
  rw [dscr_values, dscr_values, cast_T_project, List.map_filterMap]
  refine List.filterMap_congr fun y _ => ?_
  rw [DSCR_cast]

@[simp] theorem DSCR_min_cast :
    DSCR_min (Inputs.cast I) (capex.map (fun q : ℚ => (q : ℝ)))
      = (DSCR_min I capex).map (fun q : ℚ => (q : ℝ)) := by
  rw [DSCR_min, DSCR_min, dscr_values_cast, list_min?_cast]

@[simp] theorem year_rec_cast (y : ℕ) :
    year_rec (Inputs.cast I) (capex.map (fun q : ℚ => (q : ℝ))) y
      = YearRec.cast (year_rec I capex y) := by
  rw [year_rec, year_rec, YearRec.cast]
  simp

@[simp] theorem years_cast :
    years (Inputs.cast I) (capex.map (fun q : ℚ => (q : ℝ)))
      = (years I capex).map YearRec.cast := by
  rw [years, years, cast_T_project, List.map_map]
  exact List.map_congr_left fun y _ => year_rec_cast I capex y

@[simp] theorem yr1_cast :
    yr1 (Inputs.cast I) (capex.map (fun q : ℚ => (q : ℝ)))
      = YearRec.cast (yr1 I capex) := by
  rw [yr1, yr1, years_cast]
  rw [show (default : YearRec ℝ) = YearRec.cast (default : YearRec ℚ) from
    YearRec.cast_zero.symm]
  rw [list_getD_map, list_getD_map]

@[simp] theorem R_per_unit_cast :
    R_per_unit (Inputs.cast I) (capex.map (fun q : ℚ => (q : ℝ)))
      = ((R_per_unit I capex : ℚ) : ℝ) := by
  rw [R_per_unit, R_per_unit, yr1_cast]
  simp only [YearRec.cast_N_dep, YearRec.cast_R_total]
  split_ifs with h
  · push_cast; rfl
  · simp

@[simp] theorem R_per_unit_power_cast :
    R_per_unit_power (Inputs.cast I) (capex.map (fun q : ℚ => (q : ℝ)))
      = ((R_per_unit_power I capex : ℚ) : ℝ) := by
  rw [R_per_unit_power, R_per_unit_power, yr1_cast]
  simp only [YearRec.cast_N_dep, YearRec.cast_R_pwr]
  split_ifs with h
  · push_cast; rfl
  · simp

@[simp] theorem R_per_unit_therm_cast :
    R_per_unit_therm (Inputs.cast I) (capex.map (fun q : ℚ => (q : ℝ)))
      = ((R_per_unit_therm I capex : ℚ) : ℝ) := by
  rw [R_per_unit_therm, R_per_unit_therm, yr1_cast]
  simp only [YearRec.cast_N_dep, YearRec.cast_R_thrm]
  split_ifs with h
  · push_cast; rfl
  · simp

@[simp] theorem R_per_unit_tip_cast :
    R_per_unit_tip (Inputs.cast I) (capex.map (fun q : ℚ => (q : ℝ)))
      = ((R_per_unit_tip I capex : ℚ) : ℝ) := by
  rw [R_per_unit_tip, R_per_unit_tip, yr1_cast]
  simp only [YearRec.cast_N_dep, YearRec.cast_R_tip]
  split_ifs with h
  · push_cast; rfl
  · simp

@[simp] theorem R_per_unit_carbon_cast :
    R_per_unit_carbon (Inputs.cast I) (capex.map (fun q : ℚ => (q : ℝ)))
      = ((R_per_unit_carbon I capex : ℚ) : ℝ) := by
  rw [R_per_unit_carbon, R_per_unit_carbon, yr1_cast]
  simp only [YearRec.cast_N_dep, YearRec.cast_R_crb]
  split_ifs with h
  · push_cast; rfl
  · simp

@[simp] theorem warnings_cast :
    warnings (Inputs.cast I) (capex.map (fun q : ℚ => (q : ℝ))) = warnings I capex := by
  rw [warnings, warnings, NPV_cast, DSCR_min_cast]
  congr 1
  · exact if_congr Rat.cast_lt_zero rfl rfl
  · rcases DSCR_min I capex with _ | m
    · rfl
    · show ((if ((m : ℚ) : ℝ) < 1 then [Warning.dscrDefaultRisk] else []) ++
          (if ((m : ℚ) : ℝ) < 5 / 4 ∧ 1 ≤ ((m : ℚ) : ℝ) then [Warning.dscrCovenant] else []))
        = _
      congr 1
      · refine if_congr ?_ rfl rfl
        rw [show (1 : ℝ) = ((1 : ℚ) : ℝ) from by norm_num]
        exact Rat.cast_lt
      · refine if_congr ?_ rfl rfl
        rw [show (5 / 4 : ℝ) = ((5 / 4 : ℚ) : ℝ) from by norm_num,
          show (1 : ℝ) = ((1 : ℚ) : ℝ) from by norm_num]
        exact and_congr Rat.cast_lt Rat.cast_le

end Model

/-! ### The learning-curve schedule -/

theorem unitCapex_length (c lr : ℝ) (n : ℕ) : (unitCapex c lr n).length = n := by
  rw [unitCapex, List.length_map, List.length_range]

/-- With a learning rate of exactly 1 the exponent is 0 and every unit costs
the base amount. -/
theorem unitCapex_lr_one (c : ℝ) (n : ℕ) : unitCapex c 1 n = List.replicate n c := by
  rw [unitCapex]
  have : ∀ i : ℕ, c * (((i + 1 : ℕ) : ℝ) ^ (Real.log 1 / Real.log 2)) = c := by
    intro i
    rw [Real.log_one, zero_div, Real.rpow_zero, mul_one]
  calc (List.range n).map (fun i => c * (((i + 1 : ℕ) : ℝ) ^ (Real.log 1 / Real.log 2)))
      = (List.range n).map (fun _ => c) := List.map_congr_left fun i _ => this i
    _ = List.replicate n c := by rw [List.map_const']; rw [List.length_range]

/-- The capital schedule of a coerced rational scenario with learning rate 1
is the coercion of a rational schedule. -/
theorem capexOf_cast_lr_one (qI : Inputs ℚ) (h : qI.LR = 1) :
    capexOf (Inputs.cast qI)
      = (List.replicate qI.N_units (Model.CAPEX_unit1 qI)).map (fun q : ℚ => (q : ℝ)) := by
  rw [capexOf, Model.CAPEX_unit1_cast, cast_LR, cast_N_units, h, Rat.cast_one,
    unitCapex_lr_one, List.map_replicate]

/-- Source: `runFinancialModel` on a coerced rational scenario with learning rate 1. -/
theorem evaluate_cast_lr_one (qI : Inputs ℚ) (h : qI.LR = 1) :
    evaluate (Inputs.cast qI)
      = Model.run (Inputs.cast qI)
          ((List.replicate qI.N_units (Model.CAPEX_unit1 qI)).map (fun q : ℚ => (q : ℝ))) := by
  rw [evaluate, capexOf_cast_lr_one qI h]

/-! ### List and sum helpers for the engine lemmas -/

theorem list_range_map_getD {β : Type} (f : ℕ → β) (n i : ℕ) (d : β) (h : i < n) :
    ((List.range n).map f).getD i d = f i := by
  rw [List.getD_eq_getElem?_getD, List.getElem?_map, List.getElem?_range h]
  rfl

theorem list_range_map_sum {M : Type} [AddCommMonoid M] (f : ℕ → M) (n : ℕ) :
    ((List.range n).map f).sum = ∑ y ∈ Finset.range n, f y := by
  induction n with
  | zero => rfl
  | succ n ih =>
    rw [List.range_succ, List.map_append, List.sum_append, Finset.sum_range_succ, ih]
    simp

namespace Model

variable {F : Type} [LinearOrderedField F] [FloorRing F]

/-- The year records are exactly `year_rec 0 .. year_rec T_project`. -/
theorem years_getD (I : Inputs F) (capex : List F) (y : ℕ) (h : y ≤ I.T_project)
    (d : YearRec F) :
    (years I capex).getD y d = year_rec I capex y :=
  list_range_map_getD _ _ _ _ (Nat.lt_succ_of_le h)

theorem years_length (I : Inputs F) (capex : List F) :
    (years I capex).length = I.T_project + 1 := by
  rw [years, List.length_map, List.length_range]

/-- The cash-flow list the IRR solver reads is the `CF` column of `years`. -/
theorem years_map_CF (I : Inputs F) (capex : List F) :
    (years I capex).map (fun r => r.CF) = cfList I capex := by
  rw [years, cfList, List.map_map]
  rfl

/-- Source: `NPV` is the discounted-sum formula evaluated at the input discount rate:
the engine accumulator agrees with `npvAt` on the cash-flow sequence. -/
theorem NPV_eq_npvAt (I : Inputs F) (capex : List F) :
    NPV I capex = npvAt (cfList I capex) (I.r_disc / 100) := by
  rw [NPV, cumNPV, npvAt, cfList, List.length_map, List.length_range]
  refine congrArg List.sum (List.map_congr_left fun y hy => ?_)
  rw [List.mem_range] at hy
  rw [list_range_map_getD _ _ _ _ hy, DCF, discount_factor]

end Model


namespace Model

/-! ### Sign and monotonicity facts about the NPV formula -/

theorem npvAt_eq_sum (cfs : List ℝ) (r : ℝ) :
    npvAt cfs r = ∑ y ∈ Finset.range cfs.length, cfs.getD y 0 / (1 + r) ^ y := by
  rw [npvAt, list_range_map_sum]

theorem list_getD_eq_getElem (cfs : List ℝ) (i : ℕ) (h : i < cfs.length) :
    cfs.getD i 0 = cfs[i] := by
  rw [List.getD_eq_getElem?_getD, List.getElem?_eq_getElem h]
  rfl

theorem npvAt_nonpos (cfs : List ℝ) (r : ℝ) (hr : (-1 : ℝ) < r)
    (h : ∀ cf ∈ cfs, cf ≤ 0) : npvAt cfs r ≤ 0 := by
  rw [npvAt_eq_sum]
  refine Finset.sum_nonpos fun y hy => ?_
  rw [Finset.mem_range] at hy
  have hb : (0 : ℝ) < (1 + r) ^ y := pow_pos (by linarith) y
  have hcf : cfs.getD y 0 ≤ 0 := by
    rw [list_getD_eq_getElem cfs y hy]
    exact h _ (List.getElem_mem hy)
  exact div_nonpos_iff.mpr (Or.inr ⟨hcf, hb.le⟩)

theorem npvAt_pos (cfs : List ℝ) (r : ℝ) (hr : (-1 : ℝ) < r)
    (hnn : ∀ cf ∈ cfs, 0 ≤ cf) (hex : ∃ i, i < cfs.length ∧ 0 < cfs.getD i 0) :
    0 < npvAt cfs r := by
  rw [npvAt_eq_sum]
  obtain ⟨i, hi, hpos⟩ := hex
  refine Finset.sum_pos' (fun y hy => ?_) ⟨i, Finset.mem_range.mpr hi, ?_⟩
  · rw [Finset.mem_range] at hy
    have hb : (0 : ℝ) < (1 + r) ^ y := pow_pos (by linarith) y
    have hcf : 0 ≤ cfs.getD y 0 := by
      rw [list_getD_eq_getElem cfs y hy]
      exact hnn _ (List.getElem_mem hy)
    exact div_nonneg hcf hb.le
  · exact div_pos hpos (pow_pos (by linarith) i)

theorem npvAt_strict_anti (cfs : List ℝ) (s₁ s₂ : ℝ) (h1 : (-1 : ℝ) < s₁) (h12 : s₁ < s₂)
    (hnn : ∀ i, i < cfs.length → 0 ≤ cfs.getD i 0)
    (hex : ∃ i, 1 ≤ i ∧ i < cfs.length ∧ 0 < cfs.getD i 0) :
    npvAt cfs s₂ < npvAt cfs s₁ := by
  rw [npvAt_eq_sum, npvAt_eq_sum]
  obtain ⟨i, hi1, hilen, hipos⟩ := hex
  have hb1 : (0 : ℝ) < 1 + s₁ := by linarith
  have hb2 : (0 : ℝ) < 1 + s₂ := by linarith
  refine Finset.sum_lt_sum (fun y hy => ?_) ⟨i, Finset.mem_range.mpr hilen, ?_⟩
  · rw [Finset.mem_range] at hy
    have hple : (1 + s₁) ^ y ≤ (1 + s₂) ^ y := pow_le_pow_left₀ hb1.le (by linarith) y
    exact div_le_div_of_nonneg_left (hnn y hy) (pow_pos hb1 y) hple
  · have hplt : (1 + s₁) ^ i < (1 + s₂) ^ i :=
      pow_lt_pow_left₀ (by linarith) hb1.le (by omega)
    exact div_lt_div_of_pos_left hipos (pow_pos hb1 i) hplt

/-! ### Bisection bracket invariants -/

theorem bisect_snd_of_pos (cfs : List ℝ) (lo0 hi0 : ℝ)
    (H : ∀ r, lo0 ≤ r → r ≤ hi0 → 0 < npvAt cfs r) :
    ∀ (fuel : ℕ) (lo hi : ℝ), lo0 ≤ lo → lo < hi → hi ≤ hi0 →
      (bisect cfs fuel lo hi).2 = hi := by
  intro fuel
  induction fuel with
  | zero => intro lo hi _ _ _; rfl
  | succ fuel ih =>
    intro lo hi hlo hlt hhi
    have hmid2 : (lo + hi) / 2 < hi := by linarith
    have hpos := H ((lo + hi) / 2) (by linarith) (by linarith)
    simp only [bisect]
    rw [if_pos hpos]
    dsimp only
    split_ifs with hw
    · rfl
    · exact ih ((lo + hi) / 2) hi (by linarith) hmid2 hhi

theorem bisect_fst_of_nonpos (cfs : List ℝ) (lo0 hi0 : ℝ)
    (H : ∀ r, lo0 ≤ r → r ≤ hi0 → npvAt cfs r ≤ 0) :
    ∀ (fuel : ℕ) (lo hi : ℝ), lo0 ≤ lo → lo < hi → hi ≤ hi0 →
      (bisect cfs fuel lo hi).1 = lo := by
  intro fuel
  induction fuel with
  | zero => intro lo hi _ _ _; rfl
  | succ fuel ih =>
    intro lo hi hlo hlt hhi
    have hmid1 : lo < (lo + hi) / 2 := by linarith
    have hnp := H ((lo + hi) / 2) (by linarith) (by linarith)
    simp only [bisect]
    rw [if_neg (not_lt.mpr hnp)]
    dsimp only
    split_ifs with hw
    · rfl
    · exact ih lo ((lo + hi) / 2) hlo hmid1 (by linarith)

/-- When the test function has one sign on the whole bracket, one endpoint
never moves and the solver reports no IRR. -/
theorem IRR_none_of_no_sign_change (I : Inputs ℝ) (capex : List ℝ)
    (H : (∀ r ∈ Set.Icc (-(1 / 2) : ℝ) 2, 0 < npvAt (cfList I capex) r)
       ∨ (∀ r ∈ Set.Icc (-(1 / 2) : ℝ) 2, npvAt (cfList I capex) r ≤ 0)) :
    IRR I capex = none := by
  simp only [IRR]
  rcases H with H | H
  · have h2 : (bisect (cfList I capex) 100 (-(1 / 2)) 2).2 = 2 :=
      bisect_snd_of_pos _ (-(1 / 2)) 2
        (fun r ha hb => H r (Set.mem_Icc.mpr ⟨ha, hb⟩)) 100 _ _ le_rfl (by norm_num) le_rfl
    have hcond : ¬ (1 / 100 < |(bisect (cfList I capex) 100 (-(1 / 2)) 2).1 - -(1 / 2)| ∧
        1 / 100 < |(bisect (cfList I capex) 100 (-(1 / 2)) 2).2 - 2|) := by
      intro hx
      rw [h2, sub_self, abs_zero] at hx
      exact absurd hx.2 (by norm_num)
    rw [if_neg hcond]
  · have h1 : (bisect (cfList I capex) 100 (-(1 / 2)) 2).1 = -(1 / 2) :=
      bisect_fst_of_nonpos _ (-(1 / 2)) 2
        (fun r ha hb => H r (Set.mem_Icc.mpr ⟨ha, hb⟩)) 100 _ _ le_rfl (by norm_num) le_rfl
    have hcond : ¬ (1 / 100 < |(bisect (cfList I capex) 100 (-(1 / 2)) 2).1 - -(1 / 2)| ∧
        1 / 100 < |(bisect (cfList I capex) 100 (-(1 / 2)) 2).2 - 2|) := by
      intro hx
      rw [h1, sub_self, abs_zero] at hx
      exact absurd hx.1 (by norm_num)
    rw [if_neg hcond]

end Model


namespace Model

variable {F : Type} [LinearOrderedField F] [FloorRing F] (I : Inputs F) (capex : List F)

/-! ### Field projections of the assembled result record -/

theorem run_E_power_yr : (run I capex).E_power_yr = E_power_yr I := rfl

theorem run_capex_fleet_total : (run I capex).capex_fleet_total = capex_fleet_total capex := rfl

theorem run_unit_capex : (run I capex).unit_capex = capex := rfl

theorem run_loan_amount : (run I capex).loan_amount = loan_amount I capex := rfl

theorem run_annual_debt_service :
    (run I capex).annual_debt_service = annual_debt_service I capex := rfl

theorem run_NPV : (run I capex).NPV = NPV I capex := rfl

theorem run_IRR : (run I capex).IRR = IRR I capex := rfl

theorem run_payback_disc : (run I capex).payback_disc = payback_disc I capex := rfl

theorem run_DSCR_min : (run I capex).DSCR_min = DSCR_min I capex := rfl

theorem run_years : (run I capex).years = years I capex := rfl

theorem run_warnings : (run I capex).warnings = warnings I capex := rfl

theorem run_R_per_unit : (run I capex).R_per_unit = R_per_unit I capex := rfl

theorem run_R_per_unit_power :
    (run I capex).R_per_unit_power = R_per_unit_power I capex := rfl

theorem run_R_per_unit_therm :
    (run I capex).R_per_unit_therm = R_per_unit_therm I capex := rfl

theorem run_R_per_unit_tip : (run I capex).R_per_unit_tip = R_per_unit_tip I capex := rfl

theorem run_R_per_unit_carbon :
    (run I capex).R_per_unit_carbon = R_per_unit_carbon I capex := rfl

theorem run_yr1_revenue : (run I capex).yr1_revenue = (yr1 I capex).R_total := rfl

theorem run_yr1_opex : (run I capex).yr1_opex = (yr1 I capex).OPEX := rfl

theorem run_yr1_ebitda : (run I capex).yr1_ebitda = (yr1 I capex).EBITDA := rfl

end Model

theorem default_yearRec_eq (F : Type) [LinearOrderedField F] :
    (default : YearRec F) = YearRec.zero F := rfl

set_option maxRecDepth 400000

unseal Rat.mul Rat.add Rat.sub Rat.inv in
/-- Claim C1, counterexample.  In the worked scenario of spec section 8 the
engine deploys unit 1 in year 0 and earns a full year of power revenue there,
so the year-0 cash flow is 87600, not 0, and the NPV over the two simulated
years is 175200, not 87600. -/
theorem C1_counterexample :
    ((evaluate (Inputs.cast scenC1)).years.getD 0 (YearRec.zero ℝ)).CF ≠ 0 ∧
    (evaluate (Inputs.cast scenC1)).NPV ≠ 87600 := by
  rw [evaluate_cast_lr_one scenC1 rfl, Model.run_years, Model.run_NPV, Model.years_cast,
    Model.NPV_cast, ← YearRec.cast_zero, list_getD_map, YearRec.cast_CF]
  constructor
  · rw [ne_eq, Rat.cast_eq_zero]
    decide
  · rw [ne_eq, show (87600 : ℝ) = ((87600 : ℚ) : ℝ) from by norm_num, Rat.cast_inj]
    decide

unseal Rat.mul Rat.add Rat.sub Rat.inv in
/-- Claim C1, amended.  For the worked scenario the engine returns annual
energy 876000, year-1 power revenue 87600, year-0 cash flow 87600 (unit 1 is
deployed and earns revenue already in year 0), year-1 cash flow 87600,
NPV 175200, IRR null (all cash flows are nonnegative, no sign change) and
discounted payback year 1. -/
theorem C1_amended :
    (evaluate (Inputs.cast scenC1)).E_power_yr = 876000 ∧
    ((evaluate (Inputs.cast scenC1)).years.getD 1 (YearRec.zero ℝ)).R_pwr = 87600 ∧
    ((evaluate (Inputs.cast scenC1)).years.getD 0 (YearRec.zero ℝ)).CF = 87600 ∧
    ((evaluate (Inputs.cast scenC1)).years.getD 1 (YearRec.zero ℝ)).CF = 87600 ∧
    (evaluate (Inputs.cast scenC1)).NPV = 175200 ∧
    (evaluate (Inputs.cast scenC1)).IRR = none ∧
    (evaluate (Inputs.cast scenC1)).payback_disc = some 1 := by
  rw [evaluate_cast_lr_one scenC1 rfl, Model.run_years, Model.run_NPV, Model.run_IRR,
    Model.run_payback_disc, Model.run_E_power_yr, Model.years_cast, Model.NPV_cast,
    Model.IRR_cast, Model.payback_disc_cast, Model.E_power_yr_cast, ← YearRec.cast_zero,
    list_getD_map, list_getD_map, YearRec.cast_CF, YearRec.cast_CF, YearRec.cast_R_pwr]
  refine ⟨?_, ?_, ?_, ?_, ?_, ?_, ?_⟩
  · rw [show (876000 : ℝ) = ((876000 : ℚ) : ℝ) from by norm_num, Rat.cast_inj]
    decide
  · rw [show (87600 : ℝ) = ((87600 : ℚ) : ℝ) from by norm_num, Rat.cast_inj]
    decide
  · rw [show (87600 : ℝ) = ((87600 : ℚ) : ℝ) from by norm_num, Rat.cast_inj]
    decide
  · rw [show (87600 : ℝ) = ((87600 : ℚ) : ℝ) from by norm_num, Rat.cast_inj]
    decide
  · rw [show (175200 : ℝ) = ((175200 : ℚ) : ℝ) from by norm_num, Rat.cast_inj]
    decide
  · rw [Option.map_eq_none']
    decide
  · decide


/-- The cash-flow column of the result on a coerced rational scenario with
learning rate 1 is the coerced rational cash-flow list. -/
theorem eval_cast_years_CF (qI : Inputs ℚ) (h : qI.LR = 1) :
    (evaluate (Inputs.cast qI)).years.map (fun yr => yr.CF)
      = (Model.cfList qI (List.replicate qI.N_units (Model.CAPEX_unit1 qI))).map
          (fun q : ℚ => (q : ℝ)) := by
  rw [evaluate_cast_lr_one qI h, Model.run_years, Model.years_cast, List.map_map,
    ← Model.years_map_CF, List.map_map]
  rfl

unseal Rat.mul Rat.add Rat.sub Rat.inv in
/-- Claim C2, counterexample.  In a scenario whose only nonzero flow is a
fixed insurance cost the cash flows are `[-100, -103]`; raising the discount
rate from 0 to 100 raises the NPV from -203 to -151.5, so NPV is not a
strictly decreasing function of the discount rate. -/
theorem C2_counterexample :
    (∃ cf ∈ (evaluate (Inputs.cast scenC2)).years.map (fun yr => yr.CF), cf ≠ 0) ∧
    (0 : ℝ) < 100 ∧
    (evaluate (Inputs.cast { scenC2 with r_disc := 0 })).NPV
      < (evaluate (Inputs.cast { scenC2 with r_disc := 100 })).NPV := by
  refine ⟨?_, by norm_num, ?_⟩
  · rw [eval_cast_years_CF scenC2 rfl]
    refine ⟨((-100 : ℚ) : ℝ), List.mem_map_of_mem _ ?_, by norm_num⟩
    decide
  · rw [evaluate_cast_lr_one { scenC2 with r_disc := 0 } rfl,
      evaluate_cast_lr_one { scenC2 with r_disc := 100 } rfl,
      Model.run_NPV, Model.run_NPV, Model.NPV_cast, Model.NPV_cast, Rat.cast_lt]
    decide

/-- Claim C2, amended.  With every cash flow nonnegative and a strictly
positive cash flow in some year `y ≥ 1`, the NPV returned by the engine is a
strictly decreasing function of the discount rate on rates above -100 (where
the discount base `1 + r/100` stays positive); without those sign conditions
the monotonicity fails, as the counterexample shows. -/
theorem C2_amended (I : Inputs ℝ) (r₁ r₂ : ℝ) (h100 : (-100 : ℝ) < r₁) (h12 : r₁ < r₂)
    (hnn : ∀ y, y ≤ I.T_project → 0 ≤ Model.CF I (capexOf I) y)
    (hex : ∃ y, 1 ≤ y ∧ y ≤ I.T_project ∧ 0 < Model.CF I (capexOf I) y) :
    (evaluate { I with r_disc := r₂ }).NPV < (evaluate { I with r_disc := r₁ }).NPV := by
  rw [show (evaluate { I with r_disc := r₂ }).NPV
      = Model.NPV { I with r_disc := r₂ } (capexOf I) from rfl,
    show (evaluate { I with r_disc := r₁ }).NPV
      = Model.NPV { I with r_disc := r₁ } (capexOf I) from rfl,
    Model.NPV_eq_npvAt, Model.NPV_eq_npvAt,
    show Model.cfList { I with r_disc := r₂ } (capexOf I)
      = Model.cfList I (capexOf I) from rfl,
    show Model.cfList { I with r_disc := r₁ } (capexOf I)
      = Model.cfList I (capexOf I) from rfl]
  have hlen : (Model.cfList I (capexOf I)).length = I.T_project + 1 := by
    rw [Model.cfList, List.length_map, List.length_range]
  refine Model.npvAt_strict_anti _ (r₁ / 100) (r₂ / 100) (by linarith) (by linarith) ?_ ?_
  · intro i hi
    rw [hlen] at hi
    rw [Model.cfList, list_range_map_getD _ _ _ _ hi]
    exact hnn i (by omega)
  · obtain ⟨y, hy1, hyT, hypos⟩ := hex
    refine ⟨y, hy1, ?_, ?_⟩
    · rw [hlen]; omega
    · rw [Model.cfList, list_range_map_getD _ _ _ _ (by omega : y < I.T_project + 1)]
      exact hypos

unseal Rat.mul Rat.add Rat.sub Rat.inv in
/-- Witness for C2: the worked scenario has cash flows `[87600, 87600]`,
nonnegative with a positive year-1 flow, and its NPV at discount rate 100 is
strictly below its NPV at discount rate 0. -/
theorem C2_witness :
    (evaluate { Inputs.cast scenC1 with r_disc := 100 }).NPV
      < (evaluate { Inputs.cast scenC1 with r_disc := 0 }).NPV := by
  refine C2_amended (Inputs.cast scenC1) 0 100 (by norm_num) (by norm_num) ?_ ?_
  · intro y hy
    rw [show (Inputs.cast scenC1).T_project = 1 from rfl] at hy
    rw [capexOf_cast_lr_one scenC1 rfl, Model.CF_cast, Rat.cast_nonneg]
    rcases Nat.le_one_iff_eq_zero_or_eq_one.mp hy with h0 | h1
    · rw [h0]; decide
    · rw [h1]; decide
  · refine ⟨1, le_rfl, by rw [show (Inputs.cast scenC1).T_project = 1 from rfl], ?_⟩
    rw [capexOf_cast_lr_one scenC1 rfl, Model.CF_cast, Rat.cast_pos]
    decide

namespace Model

/-! ### Bracket invariant and width bound of the bisection -/

theorem bisect_mem (cfs : List ℝ) :
    ∀ (fuel : ℕ) (lo hi : ℝ), lo < hi →
      lo ≤ (bisect cfs fuel lo hi).1 ∧
      (bisect cfs fuel lo hi).1 < (bisect cfs fuel lo hi).2 ∧
      (bisect cfs fuel lo hi).2 ≤ hi ∧
      ((bisect cfs fuel lo hi).1 = lo ∨ 0 < npvAt cfs (bisect cfs fuel lo hi).1) ∧
      ((bisect cfs fuel lo hi).2 = hi ∨ npvAt cfs (bisect cfs fuel lo hi).2 ≤ 0) := by
  intro fuel
  induction fuel with
  | zero =>
    intro lo hi hlt
    exact ⟨le_rfl, hlt, le_rfl, Or.inl rfl, Or.inl rfl⟩
  | succ fuel ih =>
    intro lo hi hlt
    have hmid1 : lo < (lo + hi) / 2 := by linarith
    have hmid2 : (lo + hi) / 2 < hi := by linarith
    simp only [bisect]
    rcases lt_or_le 0 (npvAt cfs ((lo + hi) / 2)) with h | h
    · rw [if_pos h]
      dsimp only
      split_ifs with hw
      · exact ⟨hmid1.le, hmid2, le_rfl, Or.inr h, Or.inl rfl⟩
      · obtain ⟨q1, q2, q3, q4, q5⟩ := ih ((lo + hi) / 2) hi hmid2
        refine ⟨le_trans hmid1.le q1, q2, q3, ?_, q5⟩
        rcases q4 with q4 | q4
        · exact Or.inr (by rw [q4]; exact h)
        · exact Or.inr q4
    · rw [if_neg (not_lt.mpr h)]
      dsimp only
      split_ifs with hw
      · exact ⟨le_rfl, hmid1, hmid2.le, Or.inl rfl, Or.inr h⟩
      · obtain ⟨q1, q2, q3, q4, q5⟩ := ih lo ((lo + hi) / 2) hmid1
        refine ⟨q1, q2, le_trans q3 hmid2.le, q4, ?_⟩
        rcases q5 with q5 | q5
        · exact Or.inr (by rw [q5]; exact h)
        · exact Or.inr q5

theorem bisect_width (cfs : List ℝ) :
    ∀ (fuel : ℕ) (lo hi : ℝ), lo < hi →
      (bisect cfs fuel lo hi).2 - (bisect cfs fuel lo hi).1 < 1 / 10000 ∨
      (bisect cfs fuel lo hi).2 - (bisect cfs fuel lo hi).1 ≤ (hi - lo) / 2 ^ fuel := by
  intro fuel
  induction fuel with
  | zero =>
    intro lo hi _
    right
    rw [pow_zero, div_one]
    exact le_of_eq rfl
  | succ fuel ih =>
    intro lo hi hlt
    have hmid1 : lo < (lo + hi) / 2 := by linarith
    have hmid2 : (lo + hi) / 2 < hi := by linarith
    simp only [bisect]
    rcases lt_or_le 0 (npvAt cfs ((lo + hi) / 2)) with h | h
    · rw [if_pos h]
      dsimp only
      split_ifs with hw
      · left
        have := abs_of_pos (show (0 : ℝ) < hi - (lo + hi) / 2 by linarith)
        rw [this] at hw
        exact hw
      · rcases ih ((lo + hi) / 2) hi hmid2 with hc | hc
        · exact Or.inl hc
        · right
          refine le_trans hc (le_of_eq ?_)
          rw [pow_succ]
          field_simp
          ring
    · rw [if_neg (not_lt.mpr h)]
      dsimp only
      split_ifs with hw
      · left
        have := abs_of_pos (show (0 : ℝ) < (lo + hi) / 2 - lo by linarith)
        rw [this] at hw
        exact hw
      · rcases ih lo ((lo + hi) / 2) hmid1 with hc | hc
        · exact Or.inl hc
        · right
          refine le_trans hc (le_of_eq ?_)
          rw [pow_succ]
          field_simp
          ring

end Model

/-- Claim C3, amended.  When the solver reports a non-null IRR, that rate is
the midpoint of a bracket narrower than the 1e-4 tolerance whose left end has
a strictly positive NPV and whose right end has a nonpositive NPV: the IRR is
within the tolerance of a sign change of the NPV formula.  The NPV value AT
the reported rate itself is not bounded by the tolerance (see the
counterexample). -/
theorem C3_amended (I : Inputs ℝ) (v : ℝ) (h : (evaluate I).IRR = some v) :
    ∃ lo hi : ℝ, lo ≤ v ∧ v ≤ hi ∧ hi - lo < 1 / 10000 ∧
      0 < Model.npvAt ((evaluate I).years.map (fun yr => yr.CF)) lo ∧
      Model.npvAt ((evaluate I).years.map (fun yr => yr.CF)) hi ≤ 0 := by
  rw [show (evaluate I).years = Model.years I (capexOf I) from rfl,
    Model.years_map_CF]
  rw [show (evaluate I).IRR = Model.IRR I (capexOf I) from rfl] at h
  simp only [Model.IRR] at h
  by_cases hcond : 1 / 100 < |(Model.bisect (Model.cfList I (capexOf I)) 100 (-(1 / 2)) 2).1
        - -(1 / 2)| ∧
      1 / 100 < |(Model.bisect (Model.cfList I (capexOf I)) 100 (-(1 / 2)) 2).2 - 2|
  · rw [if_pos hcond] at h
    obtain ⟨q1, q2, q3, q4, q5⟩ :=
      Model.bisect_mem (Model.cfList I (capexOf I)) 100 (-(1 / 2)) 2 (by norm_num)
    have hv : v = ((Model.bisect (Model.cfList I (capexOf I)) 100 (-(1 / 2)) 2).1
        + (Model.bisect (Model.cfList I (capexOf I)) 100 (-(1 / 2)) 2).2) / 2 :=
      (Option.some.inj h).symm
    have hfst : 0 < Model.npvAt (Model.cfList I (capexOf I))
        (Model.bisect (Model.cfList I (capexOf I)) 100 (-(1 / 2)) 2).1 := by
      rcases q4 with q4 | q4
      · exfalso
        rw [q4, sub_self, abs_zero] at hcond
        exact absurd hcond.1 (by norm_num)
      · exact q4
    have hsnd : Model.npvAt (Model.cfList I (capexOf I))
        (Model.bisect (Model.cfList I (capexOf I)) 100 (-(1 / 2)) 2).2 ≤ 0 := by
      rcases q5 with q5 | q5
      · exfalso
        rw [q5, sub_self, abs_zero] at hcond
        exact absurd hcond.2 (by norm_num)
      · exact q5
    have hwidth : (Model.bisect (Model.cfList I (capexOf I)) 100 (-(1 / 2)) 2).2
        - (Model.bisect (Model.cfList I (capexOf I)) 100 (-(1 / 2)) 2).1 < 1 / 10000 := by
      rcases Model.bisect_width (Model.cfList I (capexOf I)) 100 (-(1 / 2)) 2 (by norm_num)
        with hc | hc
      · exact hc
      · refine lt_of_le_of_lt hc ?_
        rw [show (2 : ℝ) - -(1 / 2) = 5 / 2 from by norm_num]
        rw [div_lt_iff₀ (by positivity)]
        norm_num
    exact ⟨_, _, by rw [hv]; linarith, by rw [hv]; linarith, hwidth, hfst, hsnd⟩
  · rw [if_neg hcond] at h
    exact absurd h (by simp)


unseal Rat.mul Rat.add Rat.sub Rat.inv in
/-- Claim C3, counterexample.  In a scenario with cash flows
`[-87600, 87600]` the solver reports IRR = -1/131072, but the NPV formula
evaluated at that rate is about 0.668, far outside the 1e-4 tolerance: the
tolerance bounds the bracket width, not the NPV value at the reported rate. -/
theorem C3_counterexample :
    ∃ v : ℝ, (evaluate (Inputs.cast scenC3)).IRR = some v ∧
      ¬ (|Model.npvAt ((evaluate (Inputs.cast scenC3)).years.map (fun yr => yr.CF)) v|
          ≤ 1 / 10000) := by
  refine ⟨((-1 / 131072 : ℚ) : ℝ), ?_, ?_⟩
  · rw [evaluate_cast_lr_one scenC3 rfl, Model.run_IRR, Model.IRR_cast]
    rw [show Model.IRR scenC3 (List.replicate scenC3.N_units (Model.CAPEX_unit1 scenC3))
        = some (-1 / 131072 : ℚ) from by decide]
    rfl
  · rw [eval_cast_years_CF scenC3 rfl, Model.npvAt_cast, ← Rat.cast_abs,
      show (1 / 10000 : ℝ) = ((1 / 10000 : ℚ) : ℝ) from by norm_num, Rat.cast_le]
    decide

unseal Rat.mul Rat.add Rat.sub Rat.inv in
/-- Witness for C3: the bracket conclusion instantiated at the concrete
scenario whose IRR is non-null. -/
theorem C3_witness :
    ∃ lo hi : ℝ, lo ≤ ((-1 / 131072 : ℚ) : ℝ) ∧ ((-1 / 131072 : ℚ) : ℝ) ≤ hi ∧
      hi - lo < 1 / 10000 ∧
      0 < Model.npvAt ((evaluate (Inputs.cast scenC3)).years.map (fun yr => yr.CF)) lo ∧
      Model.npvAt ((evaluate (Inputs.cast scenC3)).years.map (fun yr => yr.CF)) hi ≤ 0 := by
  refine C3_amended (Inputs.cast scenC3) _ ?_
  rw [evaluate_cast_lr_one scenC3 rfl, Model.run_IRR, Model.IRR_cast]
  rw [show Model.IRR scenC3 (List.replicate scenC3.N_units (Model.CAPEX_unit1 scenC3))
      = some (-1 / 131072 : ℚ) from by decide]
  rfl


/-- Claim C4: the solver reports IRR = null whenever the NPV-at-rate function
has no sign change on the bracket [-0.5, 2.0], in the dichotomy the solver
itself branches on (everywhere positive versus everywhere nonpositive); in
particular, whenever every per-year cash flow has the same sign the IRR is
null. -/
theorem C4_irr_null (I : Inputs ℝ) :
    (((∀ r ∈ Set.Icc (-(1 / 2) : ℝ) 2,
        0 < Model.npvAt ((evaluate I).years.map (fun yr => yr.CF)) r) ∨
      (∀ r ∈ Set.Icc (-(1 / 2) : ℝ) 2,
        Model.npvAt ((evaluate I).years.map (fun yr => yr.CF)) r ≤ 0)) →
      (evaluate I).IRR = none) ∧
    (((∀ cf ∈ (evaluate I).years.map (fun yr => yr.CF), 0 ≤ cf) ∨
      (∀ cf ∈ (evaluate I).years.map (fun yr => yr.CF), cf ≤ 0)) →
      (evaluate I).IRR = none) := by
  rw [show (evaluate I).years = Model.years I (capexOf I) from rfl, Model.years_map_CF,
    show (evaluate I).IRR = Model.IRR I (capexOf I) from rfl]
  constructor
  · exact fun H => Model.IRR_none_of_no_sign_change I (capexOf I) H
  · intro H
    apply Model.IRR_none_of_no_sign_change I (capexOf I)
    rcases H with H | H
    · by_cases hex : ∃ i, i < (Model.cfList I (capexOf I)).length ∧
          0 < (Model.cfList I (capexOf I)).getD i 0
      · left
        intro r hr
        rw [Set.mem_Icc] at hr
        exact Model.npvAt_pos _ r (by linarith [hr.1]) H hex
      · right
        intro r hr
        rw [Set.mem_Icc] at hr
        refine Model.npvAt_nonpos _ r (by linarith [hr.1]) ?_
        intro cf hcf
        rcases List.mem_iff_getElem.mp hcf with ⟨i, hi, hieq⟩
        push_neg at hex
        have hle := hex i hi
        rw [Model.list_getD_eq_getElem _ i hi] at hle
        rw [← hieq]
        exact hle
    · right
      intro r hr
      rw [Set.mem_Icc] at hr
      exact Model.npvAt_nonpos _ r (by linarith [hr.1]) H

unseal Rat.mul Rat.add Rat.sub Rat.inv in
/-- Witness for C4: the worked scenario has all cash flows nonnegative and
the solver indeed reports IRR = null there. -/
theorem C4_witness :
    (∀ cf ∈ (evaluate (Inputs.cast scenC1)).years.map (fun yr => yr.CF), 0 ≤ cf) ∧
    (evaluate (Inputs.cast scenC1)).IRR = none := by
  have hnn : ∀ cf ∈ (evaluate (Inputs.cast scenC1)).years.map (fun yr => yr.CF), 0 ≤ cf := by
    rw [eval_cast_years_CF scenC1 rfl]
    have hq : ∀ q ∈ Model.cfList scenC1
        (List.replicate scenC1.N_units (Model.CAPEX_unit1 scenC1)), 0 ≤ q := by decide
    intro cf hcf
    rcases List.mem_map.mp hcf with ⟨q, hqmem, rfl⟩
    rw [Rat.cast_nonneg]
    exact hq q hqmem
  exact ⟨hnn, (C4_irr_null (Inputs.cast scenC1)).2 (Or.inl hnn)⟩

/-- Claim C5: for base cost C, fleet size N with 1 ≤ N and learning rate
LR ∈ (0, 1], the per-unit schedule has exactly N entries, the entry for unit
n (1-based) is C * n ^ (log LR / log 2), the first unit costs exactly C and
(when N ≥ 2) the second unit costs exactly C * LR. -/
theorem C5_learning_curve (C lr : ℝ) (N : ℕ) (hN : 1 ≤ N) (h0 : 0 < lr) (h1 : lr ≤ 1) :
    (unitCapex C lr N).length = N ∧
    (∀ n : ℕ, 1 ≤ n → n ≤ N →
      (unitCapex C lr N).getD (n - 1) 0 = C * (n : ℝ) ^ (Real.log lr / Real.log 2)) ∧
    (unitCapex C lr N).getD 0 0 = C ∧
    (2 ≤ N → (unitCapex C lr N).getD 1 0 = C * lr) := by
  have hentry : ∀ n : ℕ, 1 ≤ n → n ≤ N →
      (unitCapex C lr N).getD (n - 1) 0 = C * (n : ℝ) ^ (Real.log lr / Real.log 2) := by
    intro n hn1 hnN
    rw [unitCapex, list_range_map_getD _ _ _ _ (by omega)]
    rw [show n - 1 + 1 = n from by omega]
  refine ⟨unitCapex_length C lr N, hentry, ?_, ?_⟩
  · have := hentry 1 le_rfl hN
    rw [show (1 : ℕ) - 1 = 0 from rfl] at this
    rw [this, Nat.cast_one, Real.one_rpow, mul_one]
  · intro h2
    have := hentry 2 (by omega) h2
    rw [show (2 : ℕ) - 1 = 1 from rfl] at this
    rw [this, Nat.cast_ofNat]
    have hlog2 : Real.log 2 ≠ 0 := ne_of_gt (Real.log_pos (by norm_num))
    rw [Real.rpow_def_of_pos (by norm_num : (0 : ℝ) < 2)]
    rw [show Real.log 2 * (Real.log lr / Real.log 2) = Real.log lr from by
      rw [mul_comm, div_mul_cancel₀ _ hlog2]]
    rw [Real.exp_log h0]

/-- Witness for C5 at base cost 7, two units, learning rate 1/2: the first
unit costs 7 and the second exactly 7 * (1/2). -/
theorem C5_witness :
    (1 : ℕ) ≤ 2 ∧ (0 : ℝ) < 1 / 2 ∧ (1 / 2 : ℝ) ≤ 1 ∧
    (unitCapex 7 (1 / 2) 2).getD 0 0 = 7 ∧
    (unitCapex 7 (1 / 2) 2).getD 1 0 = 7 * (1 / 2) := by
  have h := C5_learning_curve 7 (1 / 2) 2 (by norm_num) (by norm_num) (by norm_num)
  exact ⟨by norm_num, by norm_num, by norm_num, h.2.2.1, h.2.2.2 (by norm_num)⟩

unseal Rat.mul Rat.add Rat.sub Rat.inv in
/-- Claim C6, counterexample.  With an equity fraction of 2 the debt-financed
principal is negative while rate (6) and term (5) are positive; the engine
returns an annual debt service of 0, but the case split of the claim, whose
first case asks only for positive rate and term, asserts the amortized
annuity value, which is a negative number, not 0. -/
theorem C6_counterexample :
    0 < (Inputs.cast scenC6neg).r_debt ∧ 0 < (Inputs.cast scenC6neg).T_loan ∧
    (evaluate (Inputs.cast scenC6neg)).annual_debt_service
      ≠ (evaluate (Inputs.cast scenC6neg)).capex_fleet_total
          * (1 - (Inputs.cast scenC6neg).f_equity)
          * (1 + (Inputs.cast scenC6neg).f_loan_fees / 100)
          * ((Inputs.cast scenC6neg).r_debt / 100 / 12)
          / (1 - (1 + (Inputs.cast scenC6neg).r_debt / 100 / 12)
              ^ (-(((Inputs.cast scenC6neg).T_loan : ℤ) * 12)))
          * 12 := by
  refine ⟨?_, ?_, ?_⟩
  · rw [cast_r_debt, Rat.cast_pos]
    decide
  · decide
  · rw [evaluate_cast_lr_one scenC6neg rfl, Model.run_annual_debt_service,
      Model.run_capex_fleet_total, Model.annual_debt_service_cast,
      Model.capex_fleet_total_cast, cast_f_equity, cast_f_loan_fees, cast_r_debt,
      cast_T_loan]
    rw [show ((Model.capex_fleet_total
          (List.replicate scenC6neg.N_units (Model.CAPEX_unit1 scenC6neg)) : ℚ) : ℝ)
          * (1 - ((scenC6neg.f_equity : ℚ) : ℝ))
          * (1 + ((scenC6neg.f_loan_fees : ℚ) : ℝ) / 100)
          * (((scenC6neg.r_debt : ℚ) : ℝ) / 100 / 12)
          / (1 - (1 + ((scenC6neg.r_debt : ℚ) : ℝ) / 100 / 12)
              ^ (-((scenC6neg.T_loan : ℤ) * 12)))
          * 12
        = ((Model.capex_fleet_total
            (List.replicate scenC6neg.N_units (Model.CAPEX_unit1 scenC6neg))
            * (1 - scenC6neg.f_equity) * (1 + scenC6neg.f_loan_fees / 100)
            * (scenC6neg.r_debt / 100 / 12)
            / (1 - (1 + scenC6neg.r_debt / 100 / 12) ^ (-((scenC6neg.T_loan : ℤ) * 12)))
            * 12 : ℚ) : ℝ) from by push_cast; ring]
    rw [ne_eq, Rat.cast_inj]
    decide

unseal Rat.mul Rat.add Rat.sub Rat.inv in
/-- Claim C6, amended.  The three cases hold once the first two additionally
require a positive principal: the loan amount is principal times
(1 + fee/100); with positive principal, positive term and positive rate the
annual debt service is the monthly annuity times 12; with positive principal
and term but zero rate it is the straight-line loan amount over the term;
with zero principal or zero term it is 0.  Concretely, a loan amount of
100000 at 6 percent over 5 years gives an annual payment strictly between
23199 and 23200, approximately 23200 as the spec states. -/
theorem C6_amended :
    (∀ I : Inputs ℝ,
      ((evaluate I).loan_amount
        = (evaluate I).capex_fleet_total * (1 - I.f_equity) * (1 + I.f_loan_fees / 100)) ∧
      (0 < (evaluate I).capex_fleet_total * (1 - I.f_equity) → 0 < I.T_loan →
        0 < I.r_debt →
        (evaluate I).annual_debt_service
          = (evaluate I).loan_amount * (I.r_debt / 100 / 12)
            / (1 - (1 + I.r_debt / 100 / 12) ^ (-((I.T_loan : ℤ) * 12))) * 12) ∧
      (0 < (evaluate I).capex_fleet_total * (1 - I.f_equity) → 0 < I.T_loan →
        I.r_debt = 0 →
        (evaluate I).annual_debt_service = (evaluate I).loan_amount / (I.T_loan : ℝ)) ∧
      ((evaluate I).capex_fleet_total * (1 - I.f_equity) = 0 ∨ I.T_loan = 0 →
        (evaluate I).annual_debt_service = 0)) ∧
    (23199 < (evaluate (Inputs.cast scenC6)).annual_debt_service ∧
      (evaluate (Inputs.cast scenC6)).annual_debt_service < 23200) := by
  constructor
  · intro I
    refine ⟨rfl, ?_, ?_, ?_⟩
    · intro h1 h2 h3
      have h1h : 0 < Model.CAPEX_debt I (capexOf I) := h1
      rw [show (evaluate I).annual_debt_service
          = Model.annual_debt_service I (capexOf I) from rfl,
        show (evaluate I).loan_amount = Model.loan_amount I (capexOf I) from rfl]
      simp only [Model.annual_debt_service]
      rw [if_pos ⟨h1h, h2, h3⟩]
      push_cast
      ring
    · intro h1 h2 h3
      have h1h : 0 < Model.CAPEX_debt I (capexOf I) := h1
      rw [show (evaluate I).annual_debt_service
          = Model.annual_debt_service I (capexOf I) from rfl,
        show (evaluate I).loan_amount = Model.loan_amount I (capexOf I) from rfl]
      simp only [Model.annual_debt_service]
      rw [if_neg (fun hx => by rw [h3] at hx; exact lt_irrefl 0 hx.2.2),
        if_pos ⟨h1h, h2⟩]
    · intro h
      rw [show (evaluate I).annual_debt_service
          = Model.annual_debt_service I (capexOf I) from rfl]
      simp only [Model.annual_debt_service]
      rcases h with hP | hT
      · have hzero : Model.CAPEX_debt I (capexOf I) = 0 := hP
        rw [if_neg (fun hx => by rw [hzero] at hx; exact lt_irrefl 0 hx.1),
          if_neg (fun hx => by rw [hzero] at hx; exact lt_irrefl 0 hx.1)]
      · rw [if_neg (fun hx => by rw [hT] at hx; exact lt_irrefl 0 hx.2.1),
          if_neg (fun hx => by rw [hT] at hx; exact lt_irrefl 0 hx.2)]
  · rw [evaluate_cast_lr_one scenC6 rfl, Model.run_annual_debt_service,
      Model.annual_debt_service_cast]
    constructor
    · rw [show (23199 : ℝ) = ((23199 : ℚ) : ℝ) from by norm_num, Rat.cast_lt]
      decide
    · rw [show (23200 : ℝ) = ((23200 : ℚ) : ℝ) from by norm_num, Rat.cast_lt]
      decide

unseal Rat.mul Rat.add Rat.sub Rat.inv in
/-- Witness for C6: the debt scenario exercises the amortized-annuity case
(positive principal, term and rate) and the concrete bound. -/
theorem C6_witness :
    0 < (evaluate (Inputs.cast scenC6)).capex_fleet_total
        * (1 - (Inputs.cast scenC6).f_equity) ∧
    0 < (Inputs.cast scenC6).T_loan ∧ 0 < (Inputs.cast scenC6).r_debt ∧
    (evaluate (Inputs.cast scenC6)).annual_debt_service
      = (evaluate (Inputs.cast scenC6)).loan_amount
        * ((Inputs.cast scenC6).r_debt / 100 / 12)
        / (1 - (1 + (Inputs.cast scenC6).r_debt / 100 / 12)
            ^ (-(((Inputs.cast scenC6).T_loan : ℤ) * 12))) * 12 ∧
    23199 < (evaluate (Inputs.cast scenC6)).annual_debt_service := by
  have hP : 0 < (evaluate (Inputs.cast scenC6)).capex_fleet_total
      * (1 - (Inputs.cast scenC6).f_equity) := by
    rw [evaluate_cast_lr_one scenC6 rfl, Model.run_capex_fleet_total,
      Model.capex_fleet_total_cast, cast_f_equity]
    rw [show ((Model.capex_fleet_total
          (List.replicate scenC6.N_units (Model.CAPEX_unit1 scenC6)) : ℚ) : ℝ)
          * (1 - ((scenC6.f_equity : ℚ) : ℝ))
        = ((Model.capex_fleet_total
            (List.replicate scenC6.N_units (Model.CAPEX_unit1 scenC6))
            * (1 - scenC6.f_equity) : ℚ) : ℝ) from by push_cast; ring]
    rw [Rat.cast_pos]
    decide
  have hT : 0 < (Inputs.cast scenC6).T_loan := by decide
  have hr : 0 < (Inputs.cast scenC6).r_debt := by
    rw [cast_r_debt, Rat.cast_pos]
    decide
  exact ⟨hP, hT, hr, ((C6_amended.1 (Inputs.cast scenC6)).2.1 hP hT hr),
    (C6_amended.2).1⟩


/-- Claim C7: runSensitivity returns exactly the 8 rows built from the
tracked parameters scaled by 0.8 and 1.2 against one baseline NPV (as a
permutation, since the engine then sorts them), sorted in descending order
of the absolute range |NPV(+20%) - NPV(-20%)|, so a parameter with the
largest swing comes first. -/
theorem C7_sensitivity_sorted (I : Inputs ℝ) :
    (sensitivity I).length = 8 ∧
    (sensitivity I).Perm (sensParams.map (sensRow I (evaluate I).NPV)) ∧
    (sensitivity I).Pairwise (fun a b => b.range ≤ a.range) ∧
    (∀ row ∈ sensitivity I, row.range ≤ ((sensitivity I).getD 0 row).range) := by
  have hsort : (sensitivity I).Pairwise (fun a b => b.range ≤ a.range) := by
    simp only [sensitivity]
    refine List.Pairwise.imp (fun hab => of_decide_eq_true hab) ?_
    refine List.sorted_mergeSort ?_ ?_ (sensParams.map (sensRow I (evaluate I).NPV))
    · intro a b c hab hbc
      exact decide_eq_true (le_trans (of_decide_eq_true hbc) (of_decide_eq_true hab))
    · intro a b
      rw [Bool.or_eq_true, decide_eq_true_iff, decide_eq_true_iff]
      exact (le_total a.range b.range).symm
  refine ⟨?_, ?_, hsort, ?_⟩
  · simp only [sensitivity]
    rw [List.length_mergeSort, List.length_map]
    rfl
  · simp only [sensitivity]
    exact List.mergeSort_perm _ _
  · intro row hrow
    rcases hs : sensitivity I with _ | ⟨a, t⟩
    · rw [hs] at hrow
      exact absurd hrow (List.not_mem_nil row)
    · rw [hs] at hrow hsort
      rcases List.mem_cons.mp hrow with hr | hr
      · rw [hr]
        exact le_rfl
      · exact (List.pairwise_cons.mp hsort).1 row hr

/-- Claim C8: in every simulated year the stored tipping revenue equals the
tipped tonnage min(deployed units × per-unit annual throughput, available
waste supply) times the escalated tipping fee, and that tonnage never
exceeds the available supply. -/
theorem C8_waste_cap (I : Inputs ℝ) (y : ℕ) (h : y ≤ I.T_project) :
    ((evaluate I).years.getD y (YearRec.zero ℝ)).R_tip
      = min ((Model.N_deployed I y : ℝ) * Model.F_tpy I) I.W_tpy
        * I.R_tipping * Model.esc I.r_tipping y ∧
    min ((Model.N_deployed I y : ℝ) * Model.F_tpy I) I.W_tpy ≤ I.W_tpy := by
  constructor
  · rw [show (evaluate I).years = Model.years I (capexOf I) from rfl,
      Model.years_getD I (capexOf I) y h]
    rfl
  · exact min_le_right _ _

/-- Witness for C8: the capped scenario at year 0 (throughput 365 against a
supply of 100). -/
theorem C8_witness :
    (0 : ℕ) ≤ (Inputs.cast scenC8).T_project ∧
    ((evaluate (Inputs.cast scenC8)).years.getD 0 (YearRec.zero ℝ)).R_tip
      = min ((Model.N_deployed (Inputs.cast scenC8) 0 : ℝ)
            * Model.F_tpy (Inputs.cast scenC8)) (Inputs.cast scenC8).W_tpy
        * (Inputs.cast scenC8).R_tipping * Model.esc (Inputs.cast scenC8).r_tipping 0 :=
  ⟨Nat.zero_le _, (C8_waste_cap (Inputs.cast scenC8) 0 (Nat.zero_le _)).1⟩

/-- Claim C9: with equity fraction 1 (no debt) or a zero loan amount, the
annual debt service is 0, every simulated year has zero debt service and a
null DSCR, the minimum DSCR is null, and no debt-coverage warning is
emitted. -/
theorem C9_dscr_absent (I : Inputs ℝ)
    (h : I.f_equity = 1 ∨ (evaluate I).loan_amount = 0) :
    (evaluate I).annual_debt_service = 0 ∧
    (∀ y, y ≤ I.T_project →
      ((evaluate I).years.getD y (YearRec.zero ℝ)).DS = 0 ∧
      ((evaluate I).years.getD y (YearRec.zero ℝ)).DSCR = none) ∧
    (evaluate I).DSCR_min = none ∧
    Warning.dscrDefaultRisk ∉ (evaluate I).warnings ∧
    Warning.dscrCovenant ∉ (evaluate I).warnings := by
  have hADS : Model.annual_debt_service I (capexOf I) = 0 := by
    rcases h with he | hl
    · have hcd : Model.CAPEX_debt I (capexOf I) = 0 := by
        rw [Model.CAPEX_debt, he]
        ring
      simp only [Model.annual_debt_service]
      rw [if_neg (fun hx => by rw [hcd] at hx; exact lt_irrefl 0 hx.1),
        if_neg (fun hx => by rw [hcd] at hx; exact lt_irrefl 0 hx.1)]
    · have hla : Model.loan_amount I (capexOf I) = 0 := hl
      simp only [Model.annual_debt_service]
      split_ifs with h1 h2
      · rw [hla]
        ring
      · rw [hla, zero_div]
      · rfl
  have hDS : ∀ y : ℕ, Model.DS I (capexOf I) y = 0 := by
    intro y
    rw [Model.DS]
    split_ifs with hy
    · exact hADS
    · rfl
  have hDSCR : ∀ y : ℕ, Model.DSCR I (capexOf I) y = none := by
    intro y
    rw [Model.DSCR, if_neg (fun hx => by rw [hDS y] at hx; exact lt_irrefl 0 hx)]
  have hmin : Model.DSCR_min I (capexOf I) = none := by
    rw [Model.DSCR_min, Model.dscr_values,
      show (List.range (I.T_project + 1)).filterMap (Model.DSCR I (capexOf I))
        = [] from List.filterMap_eq_nil_iff.mpr (fun y _ => hDSCR y)]
    rfl
  refine ⟨hADS, ?_, hmin, ?_, ?_⟩
  · intro y hy
    rw [show (evaluate I).years = Model.years I (capexOf I) from rfl,
      Model.years_getD I (capexOf I) y hy]
    exact ⟨hDS y, hDSCR y⟩
  · rw [show (evaluate I).warnings = Model.warnings I (capexOf I) from rfl,
      Model.warnings, hmin]
    split_ifs <;> simp
  · rw [show (evaluate I).warnings = Model.warnings I (capexOf I) from rfl,
      Model.warnings, hmin]
    split_ifs <;> simp

/-- Witness for C9: the worked scenario has equity fraction 1 and indeed no
debt service, a null minimum DSCR and no debt-coverage warnings. -/
theorem C9_witness :
    (Inputs.cast scenC1).f_equity = 1 ∧
    (evaluate (Inputs.cast scenC1)).annual_debt_service = 0 ∧
    (evaluate (Inputs.cast scenC1)).DSCR_min = none ∧
    Warning.dscrDefaultRisk ∉ (evaluate (Inputs.cast scenC1)).warnings := by
  have he : (Inputs.cast scenC1).f_equity = 1 := by
    rw [cast_f_equity, show scenC1.f_equity = 1 from rfl, Rat.cast_one]
  have h := C9_dscr_absent (Inputs.cast scenC1) (Or.inl he)
  exact ⟨he, h.1, h.2.2.1, h.2.2.2.1⟩

/-- Claim C10: with a zero project horizon only year 0 is simulated and the
year-1 summary fields of the result fall back to the year-0 record: the
aggregate revenue, operating cost and EBITDA and the per-unit revenue
figures are all computed from `years[0]`. -/
theorem C10_yr1_fallback (I : Inputs ℝ) (h : I.T_project = 0) :
    (evaluate I).years.length = 1 ∧
    (evaluate I).yr1_revenue = ((evaluate I).years.getD 0 (YearRec.zero ℝ)).R_total ∧
    (evaluate I).yr1_opex = ((evaluate I).years.getD 0 (YearRec.zero ℝ)).OPEX ∧
    (evaluate I).yr1_ebitda = ((evaluate I).years.getD 0 (YearRec.zero ℝ)).EBITDA ∧
    (evaluate I).R_per_unit
      = (if 0 < ((evaluate I).years.getD 0 (YearRec.zero ℝ)).N_deployed
         then ((evaluate I).years.getD 0 (YearRec.zero ℝ)).R_total
              / (((evaluate I).years.getD 0 (YearRec.zero ℝ)).N_deployed : ℝ)
         else 0) ∧
    (evaluate I).R_per_unit_power
      = (if 0 < ((evaluate I).years.getD 0 (YearRec.zero ℝ)).N_deployed
         then ((evaluate I).years.getD 0 (YearRec.zero ℝ)).R_pwr
              / (((evaluate I).years.getD 0 (YearRec.zero ℝ)).N_deployed : ℝ)
         else 0) ∧
    (evaluate I).R_per_unit_therm
      = (if 0 < ((evaluate I).years.getD 0 (YearRec.zero ℝ)).N_deployed
         then ((evaluate I).years.getD 0 (YearRec.zero ℝ)).R_thrm
              / (((evaluate I).years.getD 0 (YearRec.zero ℝ)).N_deployed : ℝ)
         else 0) ∧
    (evaluate I).R_per_unit_tip
      = (if 0 < ((evaluate I).years.getD 0 (YearRec.zero ℝ)).N_deployed
         then ((evaluate I).years.getD 0 (YearRec.zero ℝ)).R_tip
              / (((evaluate I).years.getD 0 (YearRec.zero ℝ)).N_deployed : ℝ)
         else 0) ∧
    (evaluate I).R_per_unit_carbon
      = (if 0 < ((evaluate I).years.getD 0 (YearRec.zero ℝ)).N_deployed
         then ((evaluate I).years.getD 0 (YearRec.zero ℝ)).R_crb
              / (((evaluate I).years.getD 0 (YearRec.zero ℝ)).N_deployed : ℝ)
         else 0) := by
  have hys : Model.years I (capexOf I) = [Model.year_rec I (capexOf I) 0] := by
    rw [Model.years, h]
    rfl
  have hyr1 : Model.yr1 I (capexOf I) = Model.year_rec I (capexOf I) 0 := by
    rw [Model.yr1, hys]
    rfl
  rw [show (evaluate I).years = Model.years I (capexOf I) from rfl, hys]
  refine ⟨rfl, ?_, ?_, ?_, ?_, ?_, ?_, ?_, ?_⟩
  · rw [show (evaluate I).yr1_revenue = (Model.yr1 I (capexOf I)).R_total from rfl, hyr1]
    rfl
  · rw [show (evaluate I).yr1_opex = (Model.yr1 I (capexOf I)).OPEX from rfl, hyr1]
    rfl
  · rw [show (evaluate I).yr1_ebitda = (Model.yr1 I (capexOf I)).EBITDA from rfl, hyr1]
    rfl
  · rw [show (evaluate I).R_per_unit = Model.R_per_unit I (capexOf I) from rfl,
      Model.R_per_unit, hyr1]
    rfl
  · rw [show (evaluate I).R_per_unit_power = Model.R_per_unit_power I (capexOf I) from rfl,
      Model.R_per_unit_power, hyr1]
    rfl
  · rw [show (evaluate I).R_per_unit_therm = Model.R_per_unit_therm I (capexOf I) from rfl,
      Model.R_per_unit_therm, hyr1]
    rfl
  · rw [show (evaluate I).R_per_unit_tip = Model.R_per_unit_tip I (capexOf I) from rfl,
      Model.R_per_unit_tip, hyr1]
    rfl
  · rw [show (evaluate I).R_per_unit_carbon = Model.R_per_unit_carbon I (capexOf I) from rfl,
      Model.R_per_unit_carbon, hyr1]
    rfl

/-- Witness for C10 at the zero-horizon worked scenario. -/
theorem C10_witness :
    (Inputs.cast scenC10).T_project = 0 ∧
    (evaluate (Inputs.cast scenC10)).years.length = 1 ∧
    (evaluate (Inputs.cast scenC10)).yr1_revenue
      = ((evaluate (Inputs.cast scenC10)).years.getD 0 (YearRec.zero ℝ)).R_total := by
  have h := C10_yr1_fallback (Inputs.cast scenC10) rfl
  exact ⟨rfl, h.1, h.2.1⟩


end BioCHP
